import Mathlib

/-!
# A verification development for `buggy`, a thin wrapper around Vulkan

The definitions below embed the parts of `source/vulkan.cpp`,
`include/buggy/vulkan.hpp` and `source/test.cpp` that negotiate the device and
the swapchain and that drive the per-frame loop, together with the device
factory of `source/device.cpp`, the enumeration of `include/buggy/error.hpp`,
`include/buggy/semver.hpp` and `physical_device::has_extension`.  Calls into
the Vulkan driver and into GLFW are external: what they return is an explicit
input of every definition, and the calls a function makes are returned as an
explicit trace.  What a read through a dangling `std::string_view` finds is an
input as well.  Unsigned 32-bit integers are natural numbers, reduced modulo
`2 ^ 32` where the source can wrap around.
-/

namespace vulkan

/-! ## Result codes of the Vulkan headers -/

/-- The enumeration `VkResult` of `vulkan/vulkan.h`, by value. -/
abbrev VkResult := Int

def VK_SUCCESS : VkResult := 0
def VK_NOT_READY : VkResult := 1
def VK_TIMEOUT : VkResult := 2
def VK_EVENT_SET : VkResult := 3
def VK_ERROR_OUT_OF_HOST_MEMORY : VkResult := -1
def VK_ERROR_OUT_OF_DEVICE_MEMORY : VkResult := -2
def VK_ERROR_INITIALIZATION_FAILED : VkResult := -3
def VK_ERROR_DEVICE_LOST : VkResult := -4
def VK_ERROR_MEMORY_MAP_FAILED : VkResult := -5
def VK_ERROR_LAYER_NOT_PRESENT : VkResult := -6
def VK_ERROR_EXTENSION_NOT_PRESENT : VkResult := -7
def VK_ERROR_FEATURE_NOT_PRESENT : VkResult := -8
def VK_ERROR_INCOMPATIBLE_DRIVER : VkResult := -9
def VK_ERROR_TOO_MANY_OBJECTS : VkResult := -10
def VK_ERROR_FORMAT_NOT_SUPPORTED : VkResult := -11
def VK_ERROR_FRAGMENTED_POOL : VkResult := -12
def VK_ERROR_UNKNOWN : VkResult := -13
def VK_ERROR_OUT_OF_POOL_MEMORY : VkResult := -1000069000
def VK_ERROR_SURFACE_LOST_KHR : VkResult := -1000000000
def VK_ERROR_NATIVE_WINDOW_IN_USE_KHR : VkResult := -1000000001
def VK_SUBOPTIMAL_KHR : VkResult := 1000001003
def VK_ERROR_OUT_OF_DATE_KHR : VkResult := -1000001004

/-- The scoped enumeration `vulkan::error` of `vulkan.hpp`: a 32-bit value.
`static_cast<error>(result)` keeps the value of the result code. -/
structure error where
  code : Int
deriving DecidableEq, Repr

namespace error

def no_host_memory : error := ⟨VK_ERROR_OUT_OF_HOST_MEMORY⟩
def no_device_memory : error := ⟨VK_ERROR_OUT_OF_DEVICE_MEMORY⟩
def initialisation_failed : error := ⟨VK_ERROR_INITIALIZATION_FAILED⟩
def device_lost : error := ⟨VK_ERROR_DEVICE_LOST⟩
def memory_map_failed : error := ⟨VK_ERROR_MEMORY_MAP_FAILED⟩
def layer_unavailable : error := ⟨VK_ERROR_LAYER_NOT_PRESENT⟩
def extension_unavailable : error := ⟨VK_ERROR_EXTENSION_NOT_PRESENT⟩
def feature_unavailable : error := ⟨VK_ERROR_FEATURE_NOT_PRESENT⟩
def incompatible_driver : error := ⟨VK_ERROR_INCOMPATIBLE_DRIVER⟩
def too_many_objects : error := ⟨VK_ERROR_TOO_MANY_OBJECTS⟩
def unsupported_format : error := ⟨VK_ERROR_FORMAT_NOT_SUPPORTED⟩
def fragmented_pool : error := ⟨VK_ERROR_FRAGMENTED_POOL⟩
def unknown : error := ⟨VK_ERROR_UNKNOWN⟩
def no_pool_memory : error := ⟨VK_ERROR_OUT_OF_POOL_MEMORY⟩
def surface_lost : error := ⟨VK_ERROR_SURFACE_LOST_KHR⟩
def native_window_in_use : error := ⟨VK_ERROR_NATIVE_WINDOW_IN_USE_KHR⟩
def out_of_date : error := ⟨VK_ERROR_OUT_OF_DATE_KHR⟩
/-- First of the "API errors": `no_suitable_devices = 1`. -/
def no_suitable_devices : error := ⟨1⟩
/-- The enumerator after `no_suitable_devices`, so its value is 2. -/
def file_not_found : error := ⟨2⟩
/-- The enumerator after `file_not_found`, so its value is 3. -/
def timeout : error := ⟨3⟩

end error

/-- The alias `error_or<T>` for `std::expected<T, error>`. -/
abbrev error_or (α : Type) := Except error α

/-! ## Surface negotiation (`swapchain_support_details`) -/

structure VkExtent2D where
  width : Nat
  height : Nat
deriving DecidableEq, Repr

structure VkSurfaceFormatKHR where
  format : Nat
  colorSpace : Nat
deriving DecidableEq, Repr

def VK_FORMAT_B8G8R8A8_SRGB : Nat := 50
def VK_COLOR_SPACE_SRGB_NONLINEAR_KHR : Nat := 0
def VK_PRESENT_MODE_MAILBOX_KHR : Nat := 1
def VK_PRESENT_MODE_FIFO_KHR : Nat := 2

/-- The fields of `VkSurfaceCapabilitiesKHR` that the library reads. -/
structure VkSurfaceCapabilitiesKHR where
  minImageCount : Nat
  maxImageCount : Nat
  currentExtent : VkExtent2D
  minImageExtent : VkExtent2D
  maxImageExtent : VkExtent2D
  currentTransform : Nat
deriving DecidableEq, Repr

structure swapchain_support_details where
  capabilities : VkSurfaceCapabilitiesKHR
  formats : List VkSurfaceFormatKHR
  present_modes : List Nat
deriving DecidableEq, Repr

/-- The largest value of `std::uint32_t`. -/
def uint32_max : Nat := 4294967295

/-- Conversion `static_cast<std::uint32_t>` of an `int`. -/
def to_uint32 (x : Int) : Nat := (x % 4294967296).toNat

/-- The function `std::clamp(v, lo, hi)`. -/
def clamp (v lo hi : Nat) : Nat :=
  if v < lo then lo else if hi < v then hi else v

namespace swapchain_support_details

/-- Member `choose_format`: `formats[0]` is read when nothing matches. -/
def choose_format (self : swapchain_support_details) : VkSurfaceFormatKHR :=
  match self.formats.find? (fun format =>
      format.format == VK_FORMAT_B8G8R8A8_SRGB
        && format.colorSpace == VK_COLOR_SPACE_SRGB_NONLINEAR_KHR) with
  | some format => format
  | none => self.formats.getD 0 ⟨0, 0⟩

/-- Member `choose_present_mode`. -/
def choose_present_mode (self : swapchain_support_details) : Nat :=
  match self.present_modes.find? (fun mode => mode == VK_PRESENT_MODE_MAILBOX_KHR) with
  | some mode => mode
  | none => VK_PRESENT_MODE_FIFO_KHR

/-- Member `choose_extent`; `width` and `height` are what
`glfwGetFramebufferSize` stores for the window. -/
def choose_extent (self : swapchain_support_details) (width height : Int) : VkExtent2D :=
  if self.capabilities.currentExtent.width ≠ uint32_max then
    self.capabilities.currentExtent
  else
    { width := clamp (to_uint32 width)
        self.capabilities.minImageExtent.width self.capabilities.maxImageExtent.width
      height := clamp (to_uint32 height)
        self.capabilities.minImageExtent.height self.capabilities.maxImageExtent.height }

end swapchain_support_details

/-- The fields of `VkSwapchainCreateInfoKHR` that depend on the negotiation. -/
structure VkSwapchainCreateInfoKHR where
  surface : Nat
  minImageCount : Nat
  imageFormat : Nat
  imageColorSpace : Nat
  imageExtent : VkExtent2D
  preTransform : Nat
  presentMode : Nat
deriving DecidableEq, Repr

/-- The local `num_images` of `swapchain::create`:
`std::max(minImageCount + 1, maxImageCount)` on `std::uint32_t`. -/
def num_images (capabilities : VkSurfaceCapabilitiesKHR) : Nat :=
  max ((capabilities.minImageCount + 1) % 4294967296) capabilities.maxImageCount

/-- The `create_info` that `swapchain::create` hands to `vkCreateSwapchainKHR`. -/
def swapchain_create_info (support : swapchain_support_details) (surface : Nat)
    (width height : Int) : VkSwapchainCreateInfoKHR :=
  { surface := surface
    minImageCount := num_images support.capabilities
    imageFormat := support.choose_format.format
    imageColorSpace := support.choose_format.colorSpace
    imageExtent := support.choose_extent width height
    preTransform := support.capabilities.currentTransform
    presentMode := support.choose_present_mode }

/-! ## Physical devices and device selection (`device::create`) -/

structure VkExtensionProperties where
  extensionName : String
  specVersion : Nat
deriving DecidableEq, Repr

structure VkMemoryType where
  propertyFlags : Nat
  heapIndex : Nat
deriving DecidableEq, Repr

structure VkPhysicalDeviceMemoryProperties where
  memoryTypeCount : Nat
  memoryTypes : List VkMemoryType
deriving DecidableEq, Repr

/-- The capability snapshot `physical_device`; `device` is the driver handle,
`properties` and `features` are kept as uninterpreted values. -/
structure physical_device where
  device : Nat
  properties : Nat
  features : Nat
  memory_properties : VkPhysicalDeviceMemoryProperties
  extensions : List VkExtensionProperties
deriving DecidableEq, Repr

structure VkQueueFamilyProperties where
  queueFlags : Nat
  queueCount : Nat
deriving DecidableEq, Repr

def VK_QUEUE_GRAPHICS_BIT : Nat := 1

/-- What device creation depends on outside the program text.  The driver
answers about physical devices and one surface: the three queries behind
`swapchain_support_details::query`, the queue families, the per-family present
support, and the outcome of `vkCreateDevice` (result code and handle) and of
`vkGetDeviceQueue`.  The field `dead_storage` says what a read finds in the
storage of an object whose lifetime has ended, given the characters the object
held: the language does not define it, so it is an input. -/
structure driver where
  query : Nat → Nat → swapchain_support_details
  vkGetPhysicalDeviceQueueFamilyProperties : Nat → List VkQueueFamilyProperties
  vkGetPhysicalDeviceSurfaceSupportKHR : Nat → Nat → Nat → Bool
  vkCreateDevice : Nat → Nat → List String → VkResult × Nat
  vkGetDeviceQueue : Nat → Nat → Nat
  dead_storage : String → String

/-- A `std::string_view`: it owns no characters.  `characters` is what the
viewed storage held when the view was made, and `alive` tells whether the
viewed object still exists when the view is read. -/
structure string_view where
  characters : String
  alive : Bool
deriving DecidableEq, Repr

/-- The characters that a read through a view finds: those of the object while
it is alive, and whatever its dead storage holds afterwards. -/
def string_view.read (dead_storage : String → String) (view : string_view) : String :=
  if view.alive then view.characters else dead_storage view.characters

/-- The function `extension_to_string`.  Its parameter `x` is passed by value
and the result views `x.extensionName`, an array inside that parameter: when
the function has returned, the parameter is gone and the view is not alive. -/
def extension_to_string (x : VkExtensionProperties) : string_view :=
  { characters := x.extensionName, alive := false }

/-- The algorithm `std::ranges::includes` on two ranges of names, with the
default comparison: names are ordered as sequences of characters. -/
def includes : List String → List String → Bool
  | _, [] => true
  | [], _ :: _ => false
  | x :: xs, y :: ys =>
    if y.toList < x.toList then false
    else if x.toList < y.toList then includes xs (y :: ys)
    else includes xs ys

/-- A `char const*` to a name: the address held and the characters stored
there. -/
structure c_string where
  address : Nat
  characters : String
deriving DecidableEq, Repr

/-- The algorithm `std::ranges::is_sorted` with the default comparison, on
values that are ordered as numbers. -/
def is_sorted : List Nat → Bool
  | [] => true
  | [_] => true
  | x :: y :: rest => if y < x then false else is_sorted (y :: rest)

/-- The condition of the `assert` at the head of `supports_extensions`:
`std::ranges::is_sorted` on the span of `char const*`, whose default comparison
orders the pointers by address. -/
def supports_extensions_assertion (extensions : List c_string) : Bool :=
  is_sorted (extensions.map (fun name => name.address))

/-- The function `supports_extensions` past its assertion: the names of the
device are compared through the views that `extension_to_string` returns, so
each comparison reads the dead storage of a parameter. -/
def supports_extensions (dead_storage : String → String) (device : physical_device)
    (extensions : List String) : Bool :=
  includes
    ((device.extensions.map extension_to_string).map (string_view.read dead_storage))
    extensions

/-- The comparison that `std::ranges::sort(extensions, {}, extension_to_string)`
of `retrieve_devices` makes between two elements: the default `less` on the two
projections. -/
def retrieve_devices.less (dead_storage : String → String) (x y : VkExtensionProperties) :
    Bool :=
  decide (((extension_to_string x).read dead_storage).toList
    < ((extension_to_string y).read dead_storage).toList)

/-- The search `std::ranges::find_if` over the queue families zipped with their
indices, starting at index `i`. -/
def find_graphics (drv : driver) (device surface : Nat) :
    List VkQueueFamilyProperties → Nat → Option Nat
  | [], _ => none
  | family :: rest, i =>
    if family.queueFlags &&& VK_QUEUE_GRAPHICS_BIT ≠ 0
        ∧ drv.vkGetPhysicalDeviceSurfaceSupportKHR device i surface = true then
      some i
    else find_graphics drv device surface rest (i + 1)

/-- The function `find_present_queue`. -/
def find_present_queue (drv : driver) (device : physical_device) (surface : Nat) : Option Nat :=
  find_graphics drv device.device surface
    (drv.vkGetPhysicalDeviceQueueFamilyProperties device.device) 0

/-- The lambda that `device::create` passes to `std::ranges::find_if`: its
verdict on one device together with the value it leaves in the captured
`family_index`. -/
def device_predicate (drv : driver) (surface : Nat) (selector : physical_device → Bool)
    (extensions : List String) (family_index : Nat) (device : physical_device) : Bool × Nat :=
  if ¬ (selector device ∧ supports_extensions drv.dead_storage device extensions = true) then
    (false, family_index)
  else
    let swapchain_support := drv.query device.device surface
    if swapchain_support.formats.isEmpty ∨ swapchain_support.present_modes.isEmpty then
      (false, family_index)
    else
      match find_present_queue drv device surface with
      | some index => (true, index)
      | none => (true, family_index)

/-- The call `std::ranges::find_if(physical_devices, lambda)` of `device::create`:
the first device accepted, and the final `family_index`. -/
def find_physical_device (drv : driver) (surface : Nat) (selector : physical_device → Bool)
    (extensions : List String) : List physical_device → Nat → Option physical_device × Nat
  | [], family_index => (none, family_index)
  | device :: rest, family_index =>
    match device_predicate drv surface selector extensions family_index device with
    | (true, family_index) => (some device, family_index)
    | (false, family_index) =>
      find_physical_device drv surface selector extensions rest family_index

/-- A call into the driver made while creating the logical device. -/
inductive device_call where
  | vkCreateDevice (physical : Nat) (queueFamilyIndex : Nat) (extensions : List String)
  | vkGetDeviceQueue (device : Nat) (family_index : Nat)
deriving DecidableEq, Repr

/-- The class `device`: the logical device handle, its single queue and the
physical device it was created from. -/
structure device where
  device_ : Nat
  queue_ : Nat
  physical_device_ : physical_device
deriving DecidableEq, Repr

/-- The factory `device::create` of `vulkan.cpp` (the overload taking a window),
returning its result and the driver calls it made, in order. -/
def device.create (drv : driver) (physical_devices : List physical_device) (surface : Nat)
    (selector : physical_device → Bool) (extensions : List String) :
    error_or device × List device_call :=
  match find_physical_device drv surface selector extensions physical_devices 0 with
  | (none, _) => (.error error.no_suitable_devices, [])
  | (some physical_device, family_index) =>
    let created := drv.vkCreateDevice physical_device.device family_index extensions
    if created.1 ≠ VK_SUCCESS then
      (.error ⟨created.1⟩,
        [.vkCreateDevice physical_device.device family_index extensions])
    else
      (.ok { device_ := created.2
             queue_ := drv.vkGetDeviceQueue created.2 family_index
             physical_device_ := physical_device },
        [.vkCreateDevice physical_device.device family_index extensions,
         .vkGetDeviceQueue created.2 family_index])

/-- The class `device` of `device.hpp`, which holds no queue. -/
structure refactored_device where
  device_ : Nat
  physical_device_ : physical_device
deriving DecidableEq, Repr

/-- The private `device::create` of `device.cpp`, behind the overloads of
`device.hpp`: the search is `std::ranges::find_if(physical_devices, selector)`
and `family_index` stays 0.  The body reads neither its parameter `surface`
nor its parameter `properties`, and the required extensions only reach
`vkCreateDevice`. -/
def refactored_device.create (drv : driver) (physical_devices : List physical_device)
    (selector : physical_device → Bool) (extensions : List String) :
    error_or refactored_device × List device_call :=
  match physical_devices.find? selector with
  | none => (.error error.no_suitable_devices, [])
  | some physical_device =>
    let created := drv.vkCreateDevice physical_device.device 0 extensions
    if created.1 ≠ VK_SUCCESS then
      (.error ⟨created.1⟩, [.vkCreateDevice physical_device.device 0 extensions])
    else
      (.ok { device_ := created.2, physical_device_ := physical_device },
        [.vkCreateDevice physical_device.device 0 extensions, .vkGetDeviceQueue created.2 0])

/-- What the lambda of `device::create` requires of one device: the selector
accepts it, `supports_extensions` answers true, and the surface reports at
least one format and at least one present mode for it. -/
def selection_constraints (drv : driver) (surface : Nat) (selector : physical_device → Bool)
    (extensions : List String) (device : physical_device) : Prop :=
  selector device = true ∧ supports_extensions drv.dead_storage device extensions = true
    ∧ (drv.query device.device surface).formats ≠ []
    ∧ (drv.query device.device surface).present_modes ≠ []

/-! ## Swapchain objects (`swapchain::create`) -/

/-- The class `swapchain`; handles are natural numbers. -/
structure swapchain where
  swapchain_ : Nat
  images_ : List Nat
  format_ : Nat
  extent_ : VkExtent2D
  image_views_ : List Nat
  device_ : Nat
deriving DecidableEq, Repr

/-- What the surface, the window and the driver answer during one call of
`swapchain::create`. -/
structure swapchain_driver where
  support : swapchain_support_details
  width : Int
  height : Int
  vkCreateSwapchainKHR : VkResult × Nat
  vkGetSwapchainImagesKHR : List Nat
  vkCreateImageView : Nat → Nat

/-- The factory `swapchain::create`, with the constructor of `swapchain` inlined:
the images are fetched and one view is created per image. -/
def swapchain.create (drv : swapchain_driver) (d : device) (surface : Nat) : error_or swapchain :=
  let create_info := swapchain_create_info drv.support surface drv.width drv.height
  if drv.vkCreateSwapchainKHR.1 ≠ VK_SUCCESS then
    .error ⟨drv.vkCreateSwapchainKHR.1⟩
  else
    .ok { swapchain_ := drv.vkCreateSwapchainKHR.2
          images_ := drv.vkGetSwapchainImagesKHR
          format_ := create_info.imageFormat
          extent_ := create_info.imageExtent
          image_views_ := drv.vkGetSwapchainImagesKHR.map drv.vkCreateImageView
          device_ := d.device_ }

/-! ## The frame loop (`hello_triangle_application::run`) -/

/-- The ways `panic` leaves the program: it throws `std::runtime_error` with a
message, or control reaches `std::unreachable()`. -/
inductive thrown where
  | runtime_error (what : String)
  | unreachable
deriving DecidableEq, Repr

/-- The call operator `panic::operator()(vulkan::error)` of `test.cpp`. -/
def panic (e : error) : thrown :=
  if e = error.no_host_memory then .runtime_error "no host memory available"
  else if e = error.no_device_memory then .runtime_error "no host device available"
  else if e = error.initialisation_failed then .runtime_error "initialisation failed"
  else if e = error.device_lost then .runtime_error "device lost"
  else if e = error.memory_map_failed then .runtime_error "memory map failed"
  else if e = error.layer_unavailable then .runtime_error "layer unavailable"
  else if e = error.extension_unavailable then .runtime_error "extension unavailable"
  else if e = error.feature_unavailable then .runtime_error "feature unavailable"
  else if e = error.incompatible_driver then .runtime_error "incompatible driver"
  else if e = error.too_many_objects then .runtime_error "too many objects"
  else if e = error.unsupported_format then .runtime_error "unsupported format"
  else if e = error.fragmented_pool then .runtime_error "fragmented pool"
  else if e = error.unknown then .runtime_error "unknown error"
  else if e = error.no_pool_memory then .runtime_error "no pool memory"
  else if e = error.no_suitable_devices then .runtime_error "no suitable devices"
  else if e = error.file_not_found then .runtime_error "file not found"
  else if e = error.timeout then .runtime_error "timeout"
  else if e = error.out_of_date then .runtime_error "out-of-date"
  else .unreachable

/-- State of a fence as the host sees it: `signalled`; `unsignalled` after a
reset with no submission attached; `pending` once a queue submission that will
signal it has been accepted and its GPU work has not been observed complete. -/
inductive fence_state where
  | signalled
  | unsignalled
  | pending
deriving DecidableEq, Repr

/-- The factory `fence::create`: the fence is created with
`VK_FENCE_CREATE_SIGNALED_BIT`. -/
def fence.create (result : VkResult) : error_or fence_state :=
  if result ≠ VK_SUCCESS then .error ⟨result⟩ else .ok .signalled

/-- The class `framebuffer` with what `framebuffer::create` bound it to. -/
structure framebuffer where
  framebuffer_ : Nat
  attachment : Nat
  width : Nat
  height : Nat
deriving DecidableEq, Repr

/-- A call made by one iteration of the frame loop.  Fences, semaphores and
command buffers are named by their index in the arrays `frame_completed`,
`image_available`, `render_finished` and `command_buffer_`. -/
inductive call where
  | vkWaitForFences (fence : Nat)
  | vkAcquireNextImageKHR (swapchain : Nat) (image_available : Nat)
  | vkResetFences (fence : Nat)
  | vkResetCommandBuffer (buffer : Nat)
  | vkBeginCommandBuffer (buffer : Nat)
  | vkCmdBeginRenderPass (buffer : Nat) (render_pass : Nat) (target : Option framebuffer)
      (render_area : VkExtent2D)
  | vkCmdBindPipeline (buffer : Nat) (pipeline : Nat)
  | vkCmdSetViewport (buffer : Nat) (x y width height : Nat)
  | vkCmdSetScissor (buffer : Nat) (extent : VkExtent2D)
  | vkCmdBindVertexBuffers (buffer : Nat)
  | vkCmdDraw (buffer : Nat) (vertex_count : Nat)
  | vkCmdEndRenderPass (buffer : Nat)
  | vkEndCommandBuffer (buffer : Nat)
  | vkQueueSubmit (buffer : Nat) (image_available : Nat) (wait_stage : Nat)
      (render_finished : Nat) (fence : Nat)
  | vkQueuePresentKHR (swapchain : Nat) (image_index : Nat) (render_finished : Nat)
  | vkDeviceWaitIdle
  | vkCreateSwapchainKHR (info : VkSwapchainCreateInfoKHR)
  | glfwPollEvents
deriving DecidableEq, Repr

/-- The members of `hello_triangle_application` that the loop touches, the
locals `frame` and `frame_completed` of `run`, and the calls made so far. -/
structure application where
  device_ : device
  surface : Nat
  swapchain_ : swapchain
  render_pass_ : Nat
  pipeline_ : Nat
  framebuffer_ : List framebuffer
  frame : Nat
  frame_completed : List fence_state
  trace : List call
deriving DecidableEq, Repr

/-- Appends one call to the trace. -/
def application.emit (app : application) (c : call) : application :=
  { app with trace := app.trace ++ [c] }

/-- What the driver and the window answer during one iteration of the loop. -/
structure frame_driver where
  vkWaitForFences : VkResult
  vkAcquireNextImageKHR : VkResult × Nat
  vkResetFences : VkResult
  vkResetCommandBuffer : VkResult
  vkBeginCommandBuffer : VkResult
  vkEndCommandBuffer : VkResult
  vkQueueSubmit : VkResult
  vkQueuePresentKHR : VkResult
  vkDeviceWaitIdle : VkResult
  recreate : swapchain_driver

/-- A fallible step acting on the application. -/
abbrev step (α : Type) := application → error_or α × application

/-- The member `std::expected::and_then`. -/
def and_then {α β : Type} (x : error_or α × application) (f : α → step β) :
    error_or β × application :=
  match x.1 with
  | .ok a => f a x.2
  | .error e => (.error e, x.2)

/-- The member `std::expected::or_else`. -/
def or_else {α : Type} (x : error_or α × application) (f : error → step α) :
    error_or α × application :=
  match x.1 with
  | .ok a => (.ok a, x.2)
  | .error e => f e x.2

/-- The member `std::expected::transform_error` applied to `panic{}`, which
never returns. -/
def transform_error_panic {α : Type} (x : error_or α × application) :
    Except thrown α × application :=
  match x.1 with
  | .ok a => (.ok a, x.2)
  | .error e => (.error (panic e), x.2)

/-- The member `device::wait_all` of `vulkan.cpp` on one fence.  When the
driver reports success the fence has been observed signalled. -/
def device.wait_all (result : VkResult) (fence : Nat) : step Unit := fun app =>
  let app := app.emit (.vkWaitForFences fence)
  if result ≠ VK_SUCCESS then
    (.error (if result ≠ VK_TIMEOUT then ⟨result⟩ else error.timeout), app)
  else
    (.ok (), { app with frame_completed := app.frame_completed.set fence .signalled })

/-- The member `swapchain::acquire_next_image`. -/
def swapchain.acquire_next_image (result : VkResult × Nat) (image_available : Nat) :
    step Nat := fun app =>
  let app := app.emit (.vkAcquireNextImageKHR app.swapchain_.swapchain_ image_available)
  if result.1 ≠ VK_SUCCESS then (.error ⟨result.1⟩, app) else (.ok result.2, app)

/-- The member `device::reset` on one fence.  A successful reset leaves the
fence unsignalled. -/
def device.reset (result : VkResult) (fence : Nat) : step Unit := fun app =>
  let app := app.emit (.vkResetFences fence)
  if result ≠ VK_SUCCESS then (.error ⟨result⟩, app)
  else (.ok (), { app with frame_completed := app.frame_completed.set fence .unsignalled })

/-- The member `command_buffer::reset`. -/
def command_buffer.reset (result : VkResult) (frame : Nat) : step Unit := fun app =>
  let app := app.emit (.vkResetCommandBuffer frame)
  if result ≠ VK_SUCCESS then (.error ⟨result⟩, app) else (.ok (), app)

/-- The member template `command_buffer::record`. -/
def command_buffer.record (begin_result end_result : VkResult) (frame image_index : Nat)
    (custom_op : Nat → step Unit) : step Unit := fun app =>
  let app := app.emit (.vkBeginCommandBuffer frame)
  if begin_result ≠ VK_SUCCESS then (.error ⟨begin_result⟩, app)
  else
    let render_area := app.swapchain_.extent_
    let app := app.emit
      (.vkCmdBeginRenderPass frame app.render_pass_ (app.framebuffer_.get? image_index) render_area)
    let app := app.emit (.vkCmdBindPipeline frame app.pipeline_)
    let app := app.emit
      (.vkCmdSetViewport frame 0 0 app.swapchain_.extent_.width app.swapchain_.extent_.height)
    let app := app.emit (.vkCmdSetScissor frame render_area)
    match custom_op frame app with
    | (.error e, app) => (.error e, app)
    | (.ok _, app) =>
      let app := app.emit (.vkCmdEndRenderPass frame)
      let app := app.emit (.vkEndCommandBuffer frame)
      if end_result ≠ VK_SUCCESS then (.error ⟨end_result⟩, app) else (.ok (), app)

/-- The draw callback that `run` passes to `record`: it binds the vertex buffer
and draws the three vertices. -/
def draw (command_buffer : Nat) : step Unit := fun app =>
  let app := app.emit (.vkCmdBindVertexBuffers command_buffer)
  let app := app.emit (.vkCmdDraw command_buffer 3)
  (.ok (), app)

def VK_PIPELINE_STAGE_COLOR_ATTACHMENT_OUTPUT_BIT : Nat := 1024

/-- The member `device::submit` with one command buffer, one wait semaphore with
its wait stage and one signal semaphore.  An accepted submission makes the
fence pending. -/
def device.submit (result : VkResult) (command wait wait_stage signal fence : Nat) :
    step Unit := fun app =>
  let app := app.emit (.vkQueueSubmit command wait wait_stage signal fence)
  if result ≠ VK_SUCCESS then (.error ⟨result⟩, app)
  else (.ok (), { app with frame_completed := app.frame_completed.set fence .pending })

/-- The free function `present` on one swapchain and one semaphore. -/
def present (result : VkResult) (image_index swapchain signal : Nat) : step Unit := fun app =>
  let app := app.emit (.vkQueuePresentKHR swapchain image_index signal)
  if result ≠ VK_SUCCESS then (.error ⟨result⟩, app) else (.ok (), app)

/-- A fence whose GPU work is complete is signalled. -/
def fence_state.complete : fence_state → fence_state
  | .pending => .signalled
  | s => s

/-- The member `device::wait`.  When the device is idle, no submission is
outstanding any more. -/
def device.wait (result : VkResult) : step Unit := fun app =>
  let app := app.emit .vkDeviceWaitIdle
  if result ≠ VK_SUCCESS then (.error ⟨result⟩, app)
  else (.ok (), { app with frame_completed := app.frame_completed.map fence_state.complete })

/-- The lambda `reset_fences` of `run`. -/
def reset_fences (drv : frame_driver) (i : Nat) : step Nat := fun app =>
  match device.reset drv.vkResetFences app.frame app with
  | (.error e, app) => (.error e, app)
  | (.ok _, app) => (.ok i, app)

/-- The lambda `reset_command_buffer` of `run`. -/
def reset_command_buffer (drv : frame_driver) (i : Nat) : step Nat := fun app =>
  match command_buffer.reset drv.vkResetCommandBuffer app.frame app with
  | (.error e, app) => (.error e, app)
  | (.ok _, app) => (.ok i, app)

/-- The lambda `acquire_next_image` of `run`. -/
def acquire_next_image (drv : frame_driver) : step Nat := fun app =>
  swapchain.acquire_next_image drv.vkAcquireNextImageKHR app.frame app

/-- The lambda `record_command` of `run`. -/
def record_command (drv : frame_driver) (i : Nat) : step Nat := fun app =>
  match command_buffer.record drv.vkBeginCommandBuffer drv.vkEndCommandBuffer
      app.frame i draw app with
  | (.error e, app) => (.error e, app)
  | (.ok _, app) => (.ok i, app)

/-- The lambda `submit_command` of `run`. -/
def submit_command (drv : frame_driver) (i : Nat) : step Nat := fun app =>
  match device.submit drv.vkQueueSubmit app.frame app.frame
      VK_PIPELINE_STAGE_COLOR_ATTACHMENT_OUTPUT_BIT app.frame app.frame app with
  | (.error e, app) => (.error e, app)
  | (.ok _, app) => (.ok i, app)

/-- The lambda `present` of `run`. -/
def present_image (drv : frame_driver) (image_index : Nat) : step Unit := fun app =>
  present drv.vkQueuePresentKHR image_index app.swapchain_.swapchain_ app.frame app

/-- The lambda `recreate_swapchain` of `run`. -/
def recreate_swapchain (drv : frame_driver) (e : error) : step Unit := fun app =>
  if e = error.out_of_date then (.error e, app)
  else
    and_then (device.wait drv.vkDeviceWaitIdle app) (fun _ app =>
      let app := app.emit
        (.vkCreateSwapchainKHR
          (swapchain_create_info drv.recreate.support app.surface
            drv.recreate.width drv.recreate.height))
      match swapchain.create drv.recreate app.device_ app.surface with
      | .ok result => (.ok (), { app with swapchain_ := result })
      | .error e => (.error e, app))

/-- The chain of fallible steps in the body of the `while` loop, up to and
including `or_else(recreate_swapchain)`. -/
def frame_chain (drv : frame_driver) (app : application) : error_or Unit × application :=
  or_else
    (and_then
      (and_then
        (and_then
          (and_then
            (and_then
              (and_then (device.wait_all drv.vkWaitForFences app.frame app)
                (fun _ => acquire_next_image drv))
              (reset_fences drv))
            (reset_command_buffer drv))
          (record_command drv))
        (submit_command drv))
      (present_image drv))
    (recreate_swapchain drv)

/-- One iteration of the `while` loop of `run`: the chain, `panic` on the error
left over, then `glfwPollEvents` and the advance of `frame`.  An exception
leaves the loop before the last two statements. -/
def iteration (drv : frame_driver) (app : application) : Except thrown Unit × application :=
  match transform_error_panic (frame_chain drv app) with
  | (.error t, app) => (.error t, app)
  | (.ok _, app) =>
    let app := app.emit .glfwPollEvents
    (.ok (), { app with frame := (app.frame + 1) % 4294967296 % 2 })

/-- The `while` loop of `run`; the list holds one entry for every time
`window_.should_close()` answered false. -/
def loop : List frame_driver → application → Except thrown Unit × application
  | [], app => (.ok (), app)
  | drv :: rest, app =>
    match iteration drv app with
    | (.error t, app) => (.error t, app)
    | (.ok _, app) => loop rest app

/-- What the driver answers during one execution of `run`: the results of
creating the four semaphores and the two fences, the iterations of the loop,
and the result of the final `device_.wait()`. -/
structure run_driver where
  vkCreateSemaphore : Nat → VkResult
  vkCreateFence : Nat → VkResult
  frames : List frame_driver
  vkDeviceWaitIdle : VkResult

/-- The first result code that is not `VK_SUCCESS`, as an error. -/
def first_failure : List VkResult → Option error
  | [] => none
  | result :: rest => if result ≠ VK_SUCCESS then some ⟨result⟩ else first_failure rest

/-- The member `hello_triangle_application::run`: the four semaphores and the
two fences are created (a failure goes to `panic`), `frame` starts at 0, then
the loop runs and the device is waited on. -/
def run (drv : run_driver) (app : application) : Except thrown Unit × application :=
  match first_failure ((List.range 4).map drv.vkCreateSemaphore) with
  | some e => (.error (panic e), app)
  | none =>
    match fence.create (drv.vkCreateFence 0), fence.create (drv.vkCreateFence 1) with
    | .error e, _ => (.error (panic e), app)
    | .ok _, .error e => (.error (panic e), app)
    | .ok first, .ok second =>
      match loop drv.frames { app with frame := 0, frame_completed := [first, second] } with
      | (.error t, app) => (.error t, app)
      | (.ok _, app) => transform_error_panic (device.wait drv.vkDeviceWaitIdle app)

/-- Number of fences of the loop that are pending. -/
def pending_fences (app : application) : Nat :=
  app.frame_completed.countP (fun f => f == .pending)

/-! ## Concrete inputs used in the evaluations below -/

/-- A surface that reports a defined current extent lying below its minimum. -/
def stale_capabilities : VkSurfaceCapabilitiesKHR :=
  { minImageCount := 2, maxImageCount := 2
    currentExtent := ⟨100, 100⟩, minImageExtent := ⟨200, 200⟩, maxImageExtent := ⟨300, 300⟩
    currentTransform := 1 }

/-- A surface with no upper bound on the image count and an undefined extent. -/
def unbounded_capabilities (minImageCount : Nat) : VkSurfaceCapabilitiesKHR :=
  { minImageCount := minImageCount, maxImageCount := 0
    currentExtent := ⟨4294967295, 4294967295⟩
    minImageExtent := ⟨200, 200⟩, maxImageExtent := ⟨300, 300⟩
    currentTransform := 1 }

/-- A physical device with the swapchain extension. -/
def sample_gpu (handle : Nat) : physical_device :=
  { device := handle, properties := 0, features := 0
    memory_properties := ⟨0, []⟩
    extensions := [⟨"VK_KHR_swapchain", 70⟩] }

/-- A driver for which only the device with handle 2 has surface formats and
present modes; dead storage still holds what it held. -/
def sample_driver : driver :=
  { query := fun device _ =>
      { capabilities := unbounded_capabilities 2
        formats := if device = 2 then [⟨50, 0⟩] else []
        present_modes := if device = 2 then [2] else [] }
    vkGetPhysicalDeviceQueueFamilyProperties := fun _ => [⟨1, 1⟩]
    vkGetPhysicalDeviceSurfaceSupportKHR := fun _ _ _ => true
    vkCreateDevice := fun physical _ _ => (VK_SUCCESS, 10 + physical)
    vkGetDeviceQueue := fun _ _ => 7
    dead_storage := fun characters => characters }

/-- The application once its members are constructed: three swapchain images
of 800 x 600 and one framebuffer per image view. -/
def sample_application : application :=
  { device_ := ⟨12, 7, sample_gpu 2⟩
    surface := 0
    swapchain_ := ⟨100, [1, 2, 3], 50, ⟨800, 600⟩, [11, 12, 13], 12⟩
    render_pass_ := 5
    pipeline_ := 6
    framebuffer_ := [⟨21, 11, 800, 600⟩, ⟨22, 12, 800, 600⟩, ⟨23, 13, 800, 600⟩]
    frame := 0
    frame_completed := [.signalled, .signalled]
    trace := [] }

/-- A successful `swapchain::create` after the window was resized to 1024 x 768. -/
def resized : swapchain_driver :=
  { support := ⟨unbounded_capabilities 2, [⟨50, 0⟩], [2]⟩
    width := 1024
    height := 768
    vkCreateSwapchainKHR := (VK_SUCCESS, 101)
    vkGetSwapchainImagesKHR := [4, 5, 6]
    vkCreateImageView := fun image => 10 + image }

/-- An iteration in which every call succeeds and image 1 is acquired. -/
def smooth_frame : frame_driver :=
  { vkWaitForFences := VK_SUCCESS
    vkAcquireNextImageKHR := (VK_SUCCESS, 1)
    vkResetFences := VK_SUCCESS
    vkResetCommandBuffer := VK_SUCCESS
    vkBeginCommandBuffer := VK_SUCCESS
    vkEndCommandBuffer := VK_SUCCESS
    vkQueueSubmit := VK_SUCCESS
    vkQueuePresentKHR := VK_SUCCESS
    vkDeviceWaitIdle := VK_SUCCESS
    recreate := resized }

/-- Every call of the chain of one iteration succeeds. -/
def frame_driver.succeeds (drv : frame_driver) : Prop :=
  drv.vkWaitForFences = VK_SUCCESS ∧ drv.vkAcquireNextImageKHR.1 = VK_SUCCESS
    ∧ drv.vkResetFences = VK_SUCCESS ∧ drv.vkResetCommandBuffer = VK_SUCCESS
    ∧ drv.vkBeginCommandBuffer = VK_SUCCESS ∧ drv.vkEndCommandBuffer = VK_SUCCESS
    ∧ drv.vkQueueSubmit = VK_SUCCESS ∧ drv.vkQueuePresentKHR = VK_SUCCESS

/-- Calls that reuse the resources of a slot: resetting its fence, resetting or
recording its command buffer, and submitting it. -/
def call.reuses_slot : call → Bool
  | .vkResetFences _ => true
  | .vkResetCommandBuffer _ => true
  | .vkBeginCommandBuffer _ => true
  | .vkQueueSubmit _ _ _ _ _ => true
  | _ => false

/-! ## Predicates and inputs for the frame loop -/

/-- A later state of the loop: same slot index, same number of fences, and a
trace that extends the earlier one. -/
def continues (app app' : application) : Prop :=
  app'.frame = app.frame ∧ app'.frame_completed.length = app.frame_completed.length
    ∧ ∃ rest, app'.trace = app.trace ++ rest

/-- The fences after `k` iterations in which every call succeeded. -/
def steady (k : Nat) (app : application) : Prop :=
  (k = 0 ∧ app.frame = 0 ∧ app.frame_completed = [.signalled, .signalled])
    ∨ (k = 1 ∧ app.frame = 1 ∧ app.frame_completed = [.pending, .signalled])
    ∨ (2 ≤ k ∧ app.frame = k % 2 ∧ app.frame_completed = [.pending, .pending])

/-- The calls of a chain in which every step up to `present` is reached. -/
def frame_calls (app : application) (image_index : Nat) : List call :=
  [.vkWaitForFences app.frame,
   .vkAcquireNextImageKHR app.swapchain_.swapchain_ app.frame,
   .vkResetFences app.frame,
   .vkResetCommandBuffer app.frame,
   .vkBeginCommandBuffer app.frame,
   .vkCmdBeginRenderPass app.frame app.render_pass_
      (app.framebuffer_.get? image_index) app.swapchain_.extent_,
   .vkCmdBindPipeline app.frame app.pipeline_,
   .vkCmdSetViewport app.frame 0 0 app.swapchain_.extent_.width app.swapchain_.extent_.height,
   .vkCmdSetScissor app.frame app.swapchain_.extent_,
   .vkCmdBindVertexBuffers app.frame,
   .vkCmdDraw app.frame 3,
   .vkCmdEndRenderPass app.frame,
   .vkEndCommandBuffer app.frame,
   .vkQueueSubmit app.frame app.frame VK_PIPELINE_STAGE_COLOR_ATTACHMENT_OUTPUT_BIT app.frame
     app.frame,
   .vkQueuePresentKHR app.swapchain_.swapchain_ image_index app.frame]

/-- An iteration whose image acquisition reports that the surface is out of date. -/
def out_of_date_acquire : frame_driver :=
  { smooth_frame with vkAcquireNextImageKHR := (VK_ERROR_OUT_OF_DATE_KHR, 0) }

/-- An iteration whose presentation reports that the surface is out of date. -/
def out_of_date_present : frame_driver :=
  { smooth_frame with vkQueuePresentKHR := VK_ERROR_OUT_OF_DATE_KHR }

/-- An iteration whose fence wait reports a lost device. -/
def device_lost_wait : frame_driver :=
  { smooth_frame with vkWaitForFences := VK_ERROR_DEVICE_LOST }

/-- An iteration whose queue submission reports exhausted device memory. -/
def no_memory_submit : frame_driver :=
  { smooth_frame with vkQueueSubmit := VK_ERROR_OUT_OF_DEVICE_MEMORY }

/-- An iteration whose image acquisition reports a suboptimal swapchain. -/
def suboptimal_acquire : frame_driver :=
  { smooth_frame with vkAcquireNextImageKHR := (VK_SUBOPTIMAL_KHR, 0) }

/-- An iteration whose presentation reports a suboptimal swapchain. -/
def suboptimal_present : frame_driver :=
  { smooth_frame with vkQueuePresentKHR := VK_SUBOPTIMAL_KHR }

/-! ## Diagnostics (`debug_utils::log`) -/

def VK_FALSE : Nat := 0
def VK_TRUE : Nat := 1

/-- The static member `debug_utils::log`: the value it returns to the driver and
the text it prints to `stderr` for the message of the callback data. -/
def debug_utils.log (_severity _message_type : Nat) (pMessage : String) : Nat × String :=
  (VK_FALSE, "validation layer: " ++ pMessage ++ "\n")

/-! ## Buffers (`find_memory_type`, `buffer::create`) -/

/-- The loop of `find_memory_type` from index `i` with `remaining` indices left
below `memoryTypeCount`.  The test `filter & (1 << i)` is on 32-bit values, so
the shift is only defined for `i < 32`, which the 32 entries of `memoryTypes`
guarantee. -/
def find_memory_type_from (filter properties : Nat)
    (memory_properties : VkPhysicalDeviceMemoryProperties) : Nat → Nat → Option Nat
  | 0, _ => none
  | remaining + 1, i =>
    if filter &&& (1 <<< i) ≠ 0
        ∧ (memory_properties.memoryTypes.getD i ⟨0, 0⟩).propertyFlags &&& properties
            = properties then
      some i
    else find_memory_type_from filter properties memory_properties remaining (i + 1)

/-- The function `find_memory_type`. -/
def find_memory_type (filter properties : Nat)
    (memory_properties : VkPhysicalDeviceMemoryProperties) : Option Nat :=
  find_memory_type_from filter properties memory_properties memory_properties.memoryTypeCount 0

structure VkMemoryRequirements where
  size : Nat
  alignment : Nat
  memoryTypeBits : Nat
deriving DecidableEq, Repr

/-- What the driver answers during one call of `buffer::create`. -/
structure buffer_driver where
  vkCreateBuffer : VkResult × Nat
  vkGetBufferMemoryRequirements : VkMemoryRequirements
  vkAllocateMemory : VkResult × Nat
  vkBindBufferMemory : VkResult

/-- A call made by `buffer::create`, the destructors of its handles included. -/
inductive buffer_call where
  | vkCreateBuffer (size usage : Nat)
  | vkGetBufferMemoryRequirements (buffer : Nat)
  | vkAllocateMemory (allocationSize memoryTypeIndex : Nat)
  | vkBindBufferMemory (buffer memory : Nat)
  | vkFreeMemory (memory : Nat)
  | vkDestroyBuffer (buffer : Nat)
deriving DecidableEq, Repr

/-- The class template `buffer`: the buffer handle and its device memory. -/
structure buffer where
  buffer_ : Nat
  device_memory_ : Nat
deriving DecidableEq, Repr

/-- The call operator of `deleter` with an owner: a null handle is not destroyed. -/
def deleter (destroy : Nat → buffer_call) (handle : Nat) : List buffer_call :=
  if handle ≠ 0 then [destroy handle] else []

/-- The factory `buffer::create` taking usage, properties and size.  On an early
return the handles constructed so far are destroyed, last one first. -/
def buffer.create (drv : buffer_driver) (d : device) (usage properties size : Nat) :
    error_or buffer × List buffer_call :=
  if drv.vkCreateBuffer.1 ≠ VK_SUCCESS then
    (.error ⟨drv.vkCreateBuffer.1⟩, [.vkCreateBuffer size usage])
  else
    let buffer_resource := drv.vkCreateBuffer.2
    let memory_requirements := drv.vkGetBufferMemoryRequirements
    let calls : List buffer_call :=
      [.vkCreateBuffer size usage, .vkGetBufferMemoryRequirements buffer_resource]
    match find_memory_type memory_requirements.memoryTypeBits properties
        d.physical_device_.memory_properties with
    | none => (.error error.no_device_memory, calls ++ deleter .vkDestroyBuffer buffer_resource)
    | some memory_type =>
      let calls := calls ++ [.vkAllocateMemory memory_requirements.size memory_type]
      if drv.vkAllocateMemory.1 ≠ VK_SUCCESS then
        (.error ⟨drv.vkAllocateMemory.1⟩, calls ++ deleter .vkDestroyBuffer buffer_resource)
      else
        let memory_resource := drv.vkAllocateMemory.2
        let calls := calls ++ [.vkBindBufferMemory buffer_resource memory_resource]
        if drv.vkBindBufferMemory ≠ VK_SUCCESS then
          (.error ⟨drv.vkBindBufferMemory⟩,
            calls ++ deleter .vkFreeMemory memory_resource
              ++ deleter .vkDestroyBuffer buffer_resource)
        else
          (.ok { buffer_ := buffer_resource, device_memory_ := memory_resource }, calls)

/-- A memory type index usable for a buffer: below `memoryTypeCount`, allowed by
the buffer's `memoryTypeBits`, and with every requested property flag. -/
def compatible_memory_type (filter properties : Nat)
    (memory_properties : VkPhysicalDeviceMemoryProperties) (i : Nat) : Prop :=
  i < memory_properties.memoryTypeCount ∧ filter &&& (1 <<< i) ≠ 0
    ∧ (memory_properties.memoryTypes.getD i ⟨0, 0⟩).propertyFlags &&& properties = properties

/-! ## Predicates and inputs for the later theorems -/

/-- The preferred surface format of `choose_format`. -/
def preferred_format (format : VkSurfaceFormatKHR) : Prop :=
  format.format = VK_FORMAT_B8G8R8A8_SRGB ∧ format.colorSpace = VK_COLOR_SPACE_SRGB_NONLINEAR_KHR

/-- A queue family that is graphics-capable and can present to the surface. -/
def graphics_present_family (drv : driver) (device : physical_device) (surface : Nat)
    (index : Nat) : Prop :=
  ∃ family, (drv.vkGetPhysicalDeviceQueueFamilyProperties device.device).get? index = some family
    ∧ family.queueFlags &&& VK_QUEUE_GRAPHICS_BIT ≠ 0
    ∧ drv.vkGetPhysicalDeviceSurfaceSupportKHR device.device index surface = true

/-- A driver whose devices have surface formats and present modes but no queue
family that can present to the surface. -/
def headless_driver : driver :=
  { sample_driver with vkGetPhysicalDeviceSurfaceSupportKHR := fun _ _ _ => false }

/-- The step of the chain that a call belongs to: 0 fence wait, 1 acquire,
2 fence reset, 3 command-buffer reset, 4 record, 5 submit, 6 present; the calls
of the recovery and `glfwPollEvents` belong to none. -/
def call.step : call → Option Nat
  | .vkWaitForFences _ => some 0
  | .vkAcquireNextImageKHR _ _ => some 1
  | .vkResetFences _ => some 2
  | .vkResetCommandBuffer _ => some 3
  | .vkBeginCommandBuffer _ => some 4
  | .vkCmdBeginRenderPass _ _ _ _ => some 4
  | .vkCmdBindPipeline _ _ => some 4
  | .vkCmdSetViewport _ _ _ _ _ => some 4
  | .vkCmdSetScissor _ _ => some 4
  | .vkCmdBindVertexBuffers _ => some 4
  | .vkCmdDraw _ _ => some 4
  | .vkCmdEndRenderPass _ => some 4
  | .vkEndCommandBuffer _ => some 4
  | .vkQueueSubmit _ _ _ _ _ => some 5
  | .vkQueuePresentKHR _ _ _ => some 6
  | .vkDeviceWaitIdle => none
  | .vkCreateSwapchainKHR _ => none
  | .glfwPollEvents => none

/-- The driver let step `n` of the chain succeed. -/
def frame_driver.step_ok (drv : frame_driver) : Nat → Prop
  | 0 => drv.vkWaitForFences = VK_SUCCESS
  | 1 => drv.vkAcquireNextImageKHR.1 = VK_SUCCESS
  | 2 => drv.vkResetFences = VK_SUCCESS
  | 3 => drv.vkResetCommandBuffer = VK_SUCCESS
  | 4 => drv.vkBeginCommandBuffer = VK_SUCCESS ∧ drv.vkEndCommandBuffer = VK_SUCCESS
  | 5 => drv.vkQueueSubmit = VK_SUCCESS
  | 6 => drv.vkQueuePresentKHR = VK_SUCCESS
  | _ => True

/-- Number of calls the chain makes before it stops or reaches its end. -/
def calls_reached (drv : frame_driver) : Nat :=
  if drv.vkWaitForFences ≠ VK_SUCCESS then 1
  else if drv.vkAcquireNextImageKHR.1 ≠ VK_SUCCESS then 2
  else if drv.vkResetFences ≠ VK_SUCCESS then 3
  else if drv.vkResetCommandBuffer ≠ VK_SUCCESS then 4
  else if drv.vkBeginCommandBuffer ≠ VK_SUCCESS then 5
  else if drv.vkEndCommandBuffer ≠ VK_SUCCESS then 13
  else if drv.vkQueueSubmit ≠ VK_SUCCESS then 14
  else 15

/-- Calls of the recovery step and of the end of an iteration. -/
def call.after_chain : call → Bool
  | .vkDeviceWaitIdle => true
  | .vkCreateSwapchainKHR _ => true
  | .glfwPollEvents => true
  | _ => false

/-- Names in non-decreasing order, as `std::ranges::sort` leaves them. -/
def sorted_names (names : List String) : Prop :=
  names.Pairwise (fun a b => ¬ b.toList < a.toList)

/-- Names in strictly increasing order: sorted and without duplicates. -/
def strictly_sorted_names (names : List String) : Prop :=
  names.Pairwise (fun a b => a.toList < b.toList)

/-- A device with a given list of extension names. -/
def gpu_with_extensions (names : List String) : physical_device :=
  { device := 3, properties := 0, features := 0
    memory_properties := ⟨0, []⟩
    extensions := names.map (fun name => ⟨name, 1⟩) }

/-- A device with two memory types: device-local, and host-visible and coherent. -/
def gpu_with_memory : device :=
  { device_ := 12
    queue_ := 7
    physical_device_ :=
      { device := 2, properties := 0, features := 0
        memory_properties := ⟨2, [⟨1, 0⟩, ⟨6, 1⟩]⟩
        extensions := [] } }

/-- A buffer whose memory may come from either memory type. -/
def plain_buffer : buffer_driver :=
  { vkCreateBuffer := (VK_SUCCESS, 40)
    vkGetBufferMemoryRequirements := ⟨60, 4, 3⟩
    vkAllocateMemory := (VK_SUCCESS, 41)
    vkBindBufferMemory := VK_SUCCESS }

/-! ## Framebuffers of the application (`hello_triangle_application::framebuffer_`) -/

/-- The factory `framebuffer::create`: the framebuffer is bound to the image
view and sized by the extent of the swapchain. -/
def framebuffer.create (vkCreateFramebuffer : VkResult × Nat) (view : Nat) (chain : swapchain) :
    error_or framebuffer :=
  if vkCreateFramebuffer.1 ≠ VK_SUCCESS then .error ⟨vkCreateFramebuffer.1⟩
  else .ok { framebuffer_ := vkCreateFramebuffer.2, attachment := view
             width := chain.extent_.width, height := chain.extent_.height }

/-- The initialiser of the member `framebuffer_`: one `framebuffer::create` per
image view of `swapchain_`, in order; a failure goes to `panic`.  The driver
answers `vkCreateFramebuffer` per image view. -/
def make_framebuffers (vkCreateFramebuffer : Nat → VkResult × Nat) (chain : swapchain) :
    List Nat → Except thrown (List framebuffer)
  | [] => .ok []
  | view :: views =>
    match framebuffer.create (vkCreateFramebuffer view) view chain with
    | .error e => .error (panic e)
    | .ok first =>
      match make_framebuffers vkCreateFramebuffer chain views with
      | .error t => .error t
      | .ok rest => .ok (first :: rest)

/-- One framebuffer per image view of the owned swapchain, the i-th bound to
the i-th image view. -/
def framebuffers_match (app : application) : Prop :=
  app.framebuffer_.map (fun f => f.attachment) = app.swapchain_.image_views_

/-! ## Slot resources named by a call -/

/-- The indices of the fences, semaphores and command buffers that a call names. -/
def call.slots : call → List Nat
  | .vkWaitForFences fence => [fence]
  | .vkAcquireNextImageKHR _ image_available => [image_available]
  | .vkResetFences fence => [fence]
  | .vkResetCommandBuffer buffer => [buffer]
  | .vkBeginCommandBuffer buffer => [buffer]
  | .vkCmdBeginRenderPass buffer _ _ _ => [buffer]
  | .vkCmdBindPipeline buffer _ => [buffer]
  | .vkCmdSetViewport buffer _ _ _ _ => [buffer]
  | .vkCmdSetScissor buffer _ => [buffer]
  | .vkCmdBindVertexBuffers buffer => [buffer]
  | .vkCmdDraw buffer _ => [buffer]
  | .vkCmdEndRenderPass buffer => [buffer]
  | .vkEndCommandBuffer buffer => [buffer]
  | .vkQueueSubmit buffer image_available _ render_finished fence =>
    [buffer, image_available, render_finished, fence]
  | .vkQueuePresentKHR _ _ render_finished => [render_finished]
  | .vkDeviceWaitIdle => []
  | .vkCreateSwapchainKHR _ => []
  | .glfwPollEvents => []

/-! ## Waiting with a timeout (`device::wait_one`) and the enumeration of `error.hpp` -/

/-- The member `device::wait_one` of `vulkan.cpp` on one fence: the result code
is cast to `error` as it is. -/
def device.wait_one (result : VkResult) (fence : Nat) : step Unit := fun app =>
  let app := app.emit (.vkWaitForFences fence)
  if result ≠ VK_SUCCESS then (.error ⟨result⟩, app)
  else (.ok (), { app with frame_completed := app.frame_completed.set fence .signalled })

/-- The enumeration `vulkan::error` of `error.hpp`, in declaration order: every
enumerator with its value.  The values of the driver result codes are those of
`vulkan_core.h`; `file_not_found` follows `no_suitable_devices = 1`. -/
def error_hpp : List (String × Int) :=
  [("not_ready", 1), ("timeout", 2), ("event_set", 3), ("event_reset", 4), ("incomplete", 5),
   ("no_host_memory", -1), ("no_device_memory", -2), ("initialisation_failed", -3),
   ("device_lost", -4), ("memory_map_failed", -5), ("layer_unavailable", -6),
   ("extension_unavailable", -7), ("feature_unavailable", -8), ("incompatible_driver", -9),
   ("too_many_objects", -10), ("unsupported_format", -11), ("fragmented_pool", -12),
   ("unknown", -13), ("no_pool_memory", -1000069000),
   ("invalid_external_handle", -1000072003), ("fragmentation", -1000161000),
   ("invalid_opaque_capture_address", -1000257000), ("pipeline_compile_required", 1000297000),
   ("surface_lost", -1000000000), ("native_window_in_use", -1000000001),
   ("suboptimal", 1000001003), ("out_of_date", -1000001004),
   ("incompatible_display", -1000003001), ("validation_failed", -1000011001),
   ("unsupported_image_usage", -1000023000), ("unsupported_video_layout", -1000023001),
   ("unsupported_video_operation", -1000023002),
   ("unsupported_video_profile_format", -1000023003),
   ("unsupported_video_profile_codec", -1000023004),
   ("unsupported_video_std_version", -1000023005), ("unsupported_drm_format", -1000158000),
   ("not_permitted", -1000174001), ("lost_fullscreen_exclusivity", -1000255000),
   ("thread_idle", 1000268000), ("thread_done", 1000268001),
   ("operation_deferred", 1000268002), ("operation_not_deferred", 1000268003),
   ("compression_exhausted", -1000338000), ("incompatible_shader_binary", 1000482000),
   ("no_suitable_devices", 1), ("file_not_found", 2)]

/-- The value of an enumerator of `error.hpp`. -/
def error_hpp_value (name : String) : Option Int :=
  (error_hpp.find? (fun entry => entry.1 == name)).map (fun entry => entry.2)

/-- The members `device::wait_one` and `device::wait_all` of `device.cpp`, which
share one body: a timeout is mapped to the `timeout` of `error.hpp`. -/
def refactored_device.wait (result : VkResult) : error_or Unit :=
  if result ≠ VK_SUCCESS then
    .error (if result ≠ VK_TIMEOUT then ⟨result⟩ else ⟨2⟩)
  else .ok ()

/-! ## Versions (`semver`) -/

/-- The class `semver`: three `std::int16_t` members. -/
structure semver where
  major_ : Int
  minor_ : Int
  patch_ : Int
deriving DecidableEq, Repr

/-- Conversion `static_cast<std::int16_t>` of an unsigned value. -/
def to_int16 (x : Nat) : Int :=
  if x % 65536 < 32768 then (x % 65536 : Nat) else (x % 65536 : Nat) - 65536

/-- The constructor `semver(major, minor, patch)`, whose parameters are
`std::int8_t` values. -/
def semver.make (major minor patch : Int) : semver := ⟨major, minor, patch⟩

/-- The constructor `semver(std::uint32_t version)`; `~0U` is `4294967295`. -/
def semver.decode (version : Nat) : semver :=
  { major_ := to_int16 (version >>> 22)
    minor_ := to_int16 ((version &&& (4294967295 >>> 10)) >>> 12)
    patch_ := to_int16 (version &&& (4294967295 >>> 20)) }

/-- The defaulted `operator<=>`: members are compared in declaration order. -/
def semver.compare (x y : semver) : Ordering :=
  (Ord.compare x.major_ y.major_).then
    ((Ord.compare x.minor_ y.minor_).then (Ord.compare x.patch_ y.patch_))

/-- The comparison `x >= y` rewritten from `operator<=>`. -/
def semver.ge (x y : semver) : Bool := x.compare y != .lt

/-- Lexicographic order on (major, minor, patch): `y` is at most `x`. -/
def semver.lex_ge (x y : semver) : Prop :=
  y.major_ < x.major_
    ∨ (y.major_ = x.major_
      ∧ (y.minor_ < x.minor_ ∨ (y.minor_ = x.minor_ ∧ y.patch_ ≤ x.patch_)))

/-- The member `physical_device::has_extension`. -/
def physical_device.has_extension (self : physical_device) (extension_name : String)
    (vulkan_version : semver) : Bool :=
  match self.extensions.find? (fun entry => entry.extensionName == extension_name) with
  | none => false
  | some result => vulkan_version.ge (semver.decode result.specVersion)

/-! ## Vertex attribute formats (`get_format`) -/

/-- The kind of the components of a type or of a format. -/
inductive component_kind where
  | sint
  | uint
  | sfloat
deriving DecidableEq, Repr

/-- The enumeration `format` of `test.cpp`; each enumerator stands for the
`VkFormat` it is initialised with. -/
inductive format where
  | i8 | i8_vec2 | i8_vec3 | i8_vec4
  | u8 | u8_vec2 | u8_vec3 | u8_vec4
  | i16 | i16_vec2 | i16_vec3 | i16_vec4
  | u16 | u16_vec2 | u16_vec3 | u16_vec4
  | i32 | i32_vec2 | i32_vec3 | i32_vec4
  | u32 | u32_vec2 | u32_vec3 | u32_vec4
  | i64 | i64_vec2 | i64_vec3 | i64_vec4
  | u64 | u64_vec2 | u64_vec3 | u64_vec4
  | f16 | f16_vec2 | f16_vec3 | f16_vec4
  | f32 | f32_vec2 | f32_vec3 | f32_vec4
  | f64 | f64_vec2 | f64_vec3 | f64_vec4
  | error
deriving DecidableEq, Repr

/-- Component kind, width in bits and number of components of the `VkFormat`
behind an enumerator: `VK_FORMAT_R32G32_SFLOAT` is two 32-bit floats. -/
def format.layout : format → Option (component_kind × Nat × Nat)
  | .i8 => some (.sint, 8, 1) | .i8_vec2 => some (.sint, 8, 2)
  | .i8_vec3 => some (.sint, 8, 3) | .i8_vec4 => some (.sint, 8, 4)
  | .u8 => some (.uint, 8, 1) | .u8_vec2 => some (.uint, 8, 2)
  | .u8_vec3 => some (.uint, 8, 3) | .u8_vec4 => some (.uint, 8, 4)
  | .i16 => some (.sint, 16, 1) | .i16_vec2 => some (.sint, 16, 2)
  | .i16_vec3 => some (.sint, 16, 3) | .i16_vec4 => some (.sint, 16, 4)
  | .u16 => some (.uint, 16, 1) | .u16_vec2 => some (.uint, 16, 2)
  | .u16_vec3 => some (.uint, 16, 3) | .u16_vec4 => some (.uint, 16, 4)
  | .i32 => some (.sint, 32, 1) | .i32_vec2 => some (.sint, 32, 2)
  | .i32_vec3 => some (.sint, 32, 3) | .i32_vec4 => some (.sint, 32, 4)
  | .u32 => some (.uint, 32, 1) | .u32_vec2 => some (.uint, 32, 2)
  | .u32_vec3 => some (.uint, 32, 3) | .u32_vec4 => some (.uint, 32, 4)
  | .i64 => some (.sint, 64, 1) | .i64_vec2 => some (.sint, 64, 2)
  | .i64_vec3 => some (.sint, 64, 3) | .i64_vec4 => some (.sint, 64, 4)
  | .u64 => some (.uint, 64, 1) | .u64_vec2 => some (.uint, 64, 2)
  | .u64_vec3 => some (.uint, 64, 3) | .u64_vec4 => some (.uint, 64, 4)
  | .f16 => some (.sfloat, 16, 1) | .f16_vec2 => some (.sfloat, 16, 2)
  | .f16_vec3 => some (.sfloat, 16, 3) | .f16_vec4 => some (.sfloat, 16, 4)
  | .f32 => some (.sfloat, 32, 1) | .f32_vec2 => some (.sfloat, 32, 2)
  | .f32_vec3 => some (.sfloat, 32, 3) | .f32_vec4 => some (.sfloat, 32, 4)
  | .f64 => some (.sfloat, 64, 1) | .f64_vec2 => some (.sfloat, 64, 2)
  | .f64_vec3 => some (.sfloat, 64, 3) | .f64_vec4 => some (.sfloat, 64, 4)
  | .error => none

/-- The types that `get_format` tests for with `std::same_as`, and any other
type. -/
inductive attribute_type where
  | int8_t | uint8_t | int16_t | uint16_t
  | int32_t | ivec2 | ivec3 | ivec4
  | uint32_t | uvec2 | uvec3 | uvec4
  | int64_t | uint64_t
  | float | vec2 | vec3 | vec4
  | double | dvec2 | dvec3 | dvec4
  | other
deriving DecidableEq, Repr

/-- Component kind, width in bits and number of components of a type: a
`glm::dvec2` is two 64-bit floats. -/
def attribute_type.layout : attribute_type → Option (component_kind × Nat × Nat)
  | .int8_t => some (.sint, 8, 1) | .uint8_t => some (.uint, 8, 1)
  | .int16_t => some (.sint, 16, 1) | .uint16_t => some (.uint, 16, 1)
  | .int32_t => some (.sint, 32, 1) | .ivec2 => some (.sint, 32, 2)
  | .ivec3 => some (.sint, 32, 3) | .ivec4 => some (.sint, 32, 4)
  | .uint32_t => some (.uint, 32, 1) | .uvec2 => some (.uint, 32, 2)
  | .uvec3 => some (.uint, 32, 3) | .uvec4 => some (.uint, 32, 4)
  | .int64_t => some (.sint, 64, 1) | .uint64_t => some (.uint, 64, 1)
  | .float => some (.sfloat, 32, 1) | .vec2 => some (.sfloat, 32, 2)
  | .vec3 => some (.sfloat, 32, 3) | .vec4 => some (.sfloat, 32, 4)
  | .double => some (.sfloat, 64, 1) | .dvec2 => some (.sfloat, 64, 2)
  | .dvec3 => some (.sfloat, 64, 3) | .dvec4 => some (.sfloat, 64, 4)
  | .other => none

/-- Size in bytes of a layout: components times width. -/
def layout_bytes (layout : Option (component_kind × Nat × Nat)) : Nat :=
  match layout with
  | some (_, bits, count) => count * bits / 8
  | none => 0

/-- The function template `get_format`, one case per `std::same_as` test. -/
def get_format : attribute_type → format
  | .int8_t => .i8
  | .uint8_t => .u8
  | .int16_t => .i16
  | .uint16_t => .u16
  | .int32_t => .i32
  | .ivec2 => .i32_vec2
  | .ivec3 => .i32_vec3
  | .ivec4 => .i32_vec4
  | .uint32_t => .u32
  | .uvec2 => .u32_vec2
  | .uvec3 => .u32_vec3
  | .uvec4 => .u32_vec4
  | .int64_t => .i64
  | .uint64_t => .u64
  | .float => .f32
  | .vec2 => .f32_vec2
  | .vec3 => .f32_vec3
  | .vec4 => .f32_vec4
  | .double => .f64
  | .dvec2 => .f32_vec2
  | .dvec3 => .f32_vec3
  | .dvec4 => .f64_vec4
  | .other => .error

/-! ## Inputs for the last theorems -/

/-- Bit `i` of `filter` is set and the flags hold every requested flag, in the
words of the specification. -/
def least_compatible (filter properties : Nat)
    (memory_properties : VkPhysicalDeviceMemoryProperties) (i : Nat) : Prop :=
  (i < memory_properties.memoryTypeCount ∧ filter.testBit i = true
      ∧ ∀ bit, properties.testBit bit = true →
          (memory_properties.memoryTypes.getD i ⟨0, 0⟩).propertyFlags.testBit bit = true)
    ∧ ∀ k, k < i →
        ¬ (k < memory_properties.memoryTypeCount ∧ filter.testBit k = true
          ∧ ∀ bit, properties.testBit bit = true →
              (memory_properties.memoryTypes.getD k ⟨0, 0⟩).propertyFlags.testBit bit = true)

/-- A device that lists one extension twice, with different revisions. -/
def gpu_with_revisions : physical_device :=
  { device := 4, properties := 0, features := 0
    memory_properties := ⟨0, []⟩
    extensions := [⟨"VK_KHR_surface", 25⟩, ⟨"VK_KHR_swapchain", 70⟩, ⟨"VK_KHR_swapchain", 4194304⟩] }

/-- The driver answers for the framebuffers of the sample application. -/
def sample_framebuffers (view : Nat) : VkResult × Nat := (VK_SUCCESS, 10 + view)

/-! ## Inputs for the evaluations of dead storage and of `run` -/

/-- Dead storage that still holds the characters it held while alive. -/
def intact : String → String := fun characters => characters

/-- Dead storage that has been reused and now holds zero bytes: a view of the
same length reads a zero for every character. -/
def overwritten : String → String :=
  fun characters => String.mk (characters.toList.map (fun _ => Char.ofNat 0))

/-- A run in which every object is created, the loop makes three iterations,
the second of which presents to a suboptimal swapchain, and the final wait
succeeds. -/
def sample_run : run_driver :=
  { vkCreateSemaphore := fun _ => VK_SUCCESS
    vkCreateFence := fun _ => VK_SUCCESS
    frames := [smooth_frame, suboptimal_present, smooth_frame]
    vkDeviceWaitIdle := VK_SUCCESS }

end vulkan

/-! # Theorems -/

namespace vulkan

/-! ## Device selection -/

/-- The verdict of the lambda on a device is exactly the selection constraints,
whatever `family_index` holds. -/
theorem device_predicate_iff (drv : driver) (surface : Nat) (selector : physical_device → Bool)
    (extensions : List String) (family_index : Nat) (device : physical_device) :
    (device_predicate drv surface selector extensions family_index device).1 = true
      ↔ selection_constraints drv surface selector extensions device := by
  unfold device_predicate selection_constraints
  by_cases h1 : selector device = true
      ∧ supports_extensions drv.dead_storage device extensions = true
  · by_cases h2 : (drv.query device.device surface).formats.isEmpty = true
        ∨ (drv.query device.device surface).present_modes.isEmpty = true
    · simp only [h1, h2, and_self, not_true_eq_false, if_false, if_true, true_and]
      simp only [List.isEmpty_iff] at h2
      constructor
      · intro h; cases h
      · rintro ⟨hf, hp⟩
        rcases h2 with h2 | h2
        · exact absurd h2 hf
        · exact absurd h2 hp
    · simp only [h1, h2, and_self, not_true_eq_false, if_false, true_and]
      simp only [List.isEmpty_iff, not_or] at h2
      cases find_present_queue drv device surface <;> simp [h2.1, h2.2]
  · simp only [h1, not_false_eq_true, if_true]
    constructor
    · intro h; cases h
    · rintro ⟨hs, he, -⟩
      exact absurd ⟨hs, he⟩ h1

/-- The search returns a device that meets the constraints and sits behind a
prefix of devices that do not. -/
theorem find_physical_device_first (drv : driver) (surface : Nat)
    (selector : physical_device → Bool) (extensions : List String) :
    ∀ (devices : List physical_device) (start : Nat) (d : physical_device) (family_index : Nat),
      find_physical_device drv surface selector extensions devices start = (some d, family_index) →
      ∃ before after, devices = before ++ d :: after
        ∧ selection_constraints drv surface selector extensions d
        ∧ ∀ x ∈ before, ¬ selection_constraints drv surface selector extensions x := by
  intro devices
  induction devices with
  | nil => intro start d fi h; simp [find_physical_device] at h
  | cons x rest ih =>
    intro start d fi h
    have hx := device_predicate_iff drv surface selector extensions start x
    unfold find_physical_device at h
    rcases hp : device_predicate drv surface selector extensions start x with ⟨verdict, fi2⟩
    rw [hp] at h hx
    cases verdict with
    | true =>
      simp only [Prod.mk.injEq, Option.some.injEq] at h
      refine ⟨[], rest, by simp [h.1], ?_, by simp⟩
      rw [← h.1]; exact hx.mp rfl
    | false =>
      simp only at h
      obtain ⟨before, after, hsplit, hd, hbefore⟩ := ih fi2 d fi h
      refine ⟨x :: before, after, by simp [hsplit], hd, ?_⟩
      intro y hy
      rcases List.mem_cons.mp hy with rfl | hy
      · intro hc; have := hx.mpr hc; simp at this
      · exact hbefore y hy

/-- The search finds nothing when no device meets the constraints. -/
theorem find_physical_device_none (drv : driver) (surface : Nat)
    (selector : physical_device → Bool) (extensions : List String) :
    ∀ (devices : List physical_device) (start : Nat),
      (∀ d ∈ devices, ¬ selection_constraints drv surface selector extensions d) →
      find_physical_device drv surface selector extensions devices start = (none, start) := by
  intro devices
  induction devices with
  | nil => intro start _; rfl
  | cons x rest ih =>
    intro start h
    have hx := device_predicate_iff drv surface selector extensions start x
    have hnot : ¬ selection_constraints drv surface selector extensions x :=
      h x (List.mem_cons_self _ _)
    unfold find_physical_device
    unfold device_predicate at hx ⊢
    unfold selection_constraints at hnot hx
    by_cases h1 : selector x = true ∧ supports_extensions drv.dead_storage x extensions = true
    · by_cases h2 : (drv.query x.device surface).formats.isEmpty = true
          ∨ (drv.query x.device surface).present_modes.isEmpty = true
      · simp only [h1, h2, and_self, not_true_eq_false, if_false, if_true]
        exact ih start (fun d hd => h d (List.mem_cons_of_mem _ hd))
      · exfalso
        simp only [List.isEmpty_iff, not_or] at h2
        exact hnot ⟨h1.1, h1.2, h2.1, h2.2⟩
    · simp only [h1, not_false_eq_true, if_true]
      exact ih start (fun d hd => h d (List.mem_cons_of_mem _ hd))

/-- The unfinished overload of `device.cpp` is first-fit on the selector alone:
a device it returns is the first one the selector accepts, and it returns
`no_suitable_devices` without a driver call when the selector accepts none. -/
theorem refactored_create_first_fit (drv : driver) (devices : List physical_device)
    (selector : physical_device → Bool) (extensions : List String) :
    (∀ result, (refactored_device.create drv devices selector extensions).1 = .ok result →
        ∃ before after, devices = before ++ result.physical_device_ :: after
          ∧ selector result.physical_device_ = true ∧ ∀ x ∈ before, selector x = false)
      ∧ ((∀ d ∈ devices, selector d = false) →
          refactored_device.create drv devices selector extensions
            = (.error error.no_suitable_devices, [])) := by
  constructor
  · intro result h
    unfold refactored_device.create at h
    rcases hf : devices.find? selector with _ | found
    · rw [hf] at h; cases h
    · rw [hf] at h
      simp only at h
      split at h
      · cases h
      · simp only [Except.ok.injEq] at h
        subst h
        obtain ⟨hsel, before, after, hsplit, hbefore⟩ := List.find?_eq_some.mp hf
        exact ⟨before, after, hsplit, hsel, fun x hx => by simpa using hbefore x hx⟩
  · intro h
    unfold refactored_device.create
    rw [List.find?_eq_none.mpr (fun d hd => by simp [h d hd])]

/-- C2, evaluated: of the devices 1 and 2 only device 2 has a surface format
and a present mode, and no extension is required.  `device::create` of
`device.cpp` selects device 1, which fails two of the selection constraints and
stands before a device that meets them all; `device::create` of `vulkan.cpp`
selects device 2 on the same list, whatever dead storage holds. -/
theorem refactored_create_selects_unfit_device :
    (refactored_device.create sample_driver [sample_gpu 1, sample_gpu 2] (fun _ => true) []).1
        = .ok ⟨11, sample_gpu 1⟩
      ∧ (∀ surface, (sample_driver.query (sample_gpu 1).device surface).formats = []
          ∧ (sample_driver.query (sample_gpu 1).device surface).present_modes = [])
      ∧ (∀ surface, (sample_driver.query (sample_gpu 2).device surface).formats ≠ []
          ∧ (sample_driver.query (sample_gpu 2).device surface).present_modes ≠ [])
      ∧ ∀ dead_storage,
          (device.create { sample_driver with dead_storage := dead_storage }
              [sample_gpu 1, sample_gpu 2] 0 (fun _ => true) []).1
            = .ok ⟨12, 7, sample_gpu 2⟩ := by
  refine ⟨rfl, fun _ => ⟨rfl, rfl⟩, fun _ => ⟨?_, ?_⟩, fun _ => rfl⟩ <;>
    simp [sample_driver, sample_gpu]

/-- C3, evaluated: the only device of the list has no surface format and no
present mode, so no device meets the selection constraints; `device::create` of
`device.cpp` creates a logical device from it and fetches a queue.  It does the
same from a device that has no extension at all when one is required.
`device::create` of `vulkan.cpp` returns `no_suitable_devices` on the first
list without a driver call, whatever dead storage holds, and both return it on
the empty list. -/
theorem refactored_create_without_suitable_device :
    (∀ surface, (sample_driver.query (sample_gpu 1).device surface).formats = []
        ∧ (sample_driver.query (sample_gpu 1).device surface).present_modes = [])
      ∧ refactored_device.create sample_driver [sample_gpu 1] (fun _ => true)
            ["VK_KHR_swapchain"]
          = (.ok ⟨11, sample_gpu 1⟩,
              [.vkCreateDevice 1 0 ["VK_KHR_swapchain"], .vkGetDeviceQueue 11 0])
      ∧ (gpu_with_extensions []).extensions = []
      ∧ refactored_device.create sample_driver [gpu_with_extensions []] (fun _ => true)
            ["VK_KHR_swapchain"]
          = (.ok ⟨13, gpu_with_extensions []⟩,
              [.vkCreateDevice 3 0 ["VK_KHR_swapchain"], .vkGetDeviceQueue 13 0])
      ∧ (∀ dead_storage,
          device.create { sample_driver with dead_storage := dead_storage } [sample_gpu 1] 0
              (fun _ => true) ["VK_KHR_swapchain"]
            = (.error error.no_suitable_devices, []))
      ∧ refactored_device.create sample_driver [] (fun _ => true) ["VK_KHR_swapchain"]
          = (.error error.no_suitable_devices, [])
      ∧ device.create sample_driver [] 0 (fun _ => true) ["VK_KHR_swapchain"]
          = (.error error.no_suitable_devices, []) := by
  refine ⟨fun _ => ⟨rfl, rfl⟩, rfl, rfl, rfl, fun dead_storage => ?_, rfl, rfl⟩
  unfold device.create
  rw [find_physical_device_none _ 0 (fun _ => true) ["VK_KHR_swapchain"] [sample_gpu 1] 0
    (by
      intro d hd h
      rw [List.mem_singleton.mp hd] at h
      exact h.2.2.1 rfl)]

/-! ## Swapchain negotiation -/

/-- C4, evaluated: for a surface with `minImageCount = maxImageCount = 2` the
count handed to `vkCreateSwapchainKHR` is 3, above `maxImageCount` and different
from `min(minImageCount + 1, maxImageCount)`. -/
theorem num_images_exceeds_max :
    0 < stale_capabilities.maxImageCount
      ∧ stale_capabilities.minImageCount ≤ stale_capabilities.maxImageCount
      ∧ num_images stale_capabilities = 3
      ∧ (swapchain_create_info ⟨stale_capabilities, [⟨50, 0⟩], [2]⟩ 0 800 600).minImageCount = 3
      ∧ ¬ num_images stale_capabilities ≤ stale_capabilities.maxImageCount
      ∧ num_images stale_capabilities
          ≠ min (stale_capabilities.minImageCount + 1) stale_capabilities.maxImageCount := by
  decide

/-- C5 as stated fails: with `maxImageCount = 0` and `minImageCount = 2 ^ 32 - 1`
the sum wraps to 0 and the requested count is below `minImageCount`. -/
theorem num_images_unbounded_wraps :
    ¬ ∀ capabilities : VkSurfaceCapabilitiesKHR,
        capabilities.maxImageCount = 0 → capabilities.minImageCount < 4294967296 →
        capabilities.minImageCount ≤ num_images capabilities := by
  intro h
  exact absurd (h (unbounded_capabilities 4294967295) rfl (by decide)) (by decide)

/-- C5, amended: with `maxImageCount = 0` and `minImageCount < 2 ^ 32 - 1` the
requested count is `minImageCount + 1`, hence at least `minImageCount`. -/
theorem num_images_unbounded (capabilities : VkSurfaceCapabilitiesKHR)
    (hmax : capabilities.maxImageCount = 0) (hmin : capabilities.minImageCount < 4294967295) :
    num_images capabilities = capabilities.minImageCount + 1
      ∧ capabilities.minImageCount ≤ num_images capabilities := by
  unfold num_images
  rw [hmax, Nat.mod_eq_of_lt (by omega)]
  simp

/-- C5, amended, at `minImageCount = 2`. -/
theorem num_images_unbounded_witness :
    num_images (unbounded_capabilities 2) = (unbounded_capabilities 2).minImageCount + 1
      ∧ (unbounded_capabilities 2).minImageCount ≤ num_images (unbounded_capabilities 2) :=
  num_images_unbounded (unbounded_capabilities 2) rfl (by decide)

/-- The value of `std::clamp` lies between its bounds when they are ordered. -/
theorem clamp_mem (v lo hi : Nat) (h : lo ≤ hi) : lo ≤ clamp v lo hi ∧ clamp v lo hi ≤ hi := by
  unfold clamp
  split_ifs <;> omega

/-- C6 as stated fails: a surface whose current extent is defined is answered
with that extent, here 100 x 100 below the minimum 200 x 200, whatever the
framebuffer size of the window. -/
theorem choose_extent_out_of_range :
    ¬ ∀ (support : swapchain_support_details) (width height : Int),
        support.capabilities.minImageExtent.width ≤ support.capabilities.maxImageExtent.width →
        support.capabilities.minImageExtent.height ≤ support.capabilities.maxImageExtent.height →
        support.capabilities.minImageExtent.width ≤ (support.choose_extent width height).width
          ∧ (support.choose_extent width height).width ≤ support.capabilities.maxImageExtent.width
          ∧ support.capabilities.minImageExtent.height ≤ (support.choose_extent width height).height
          ∧ (support.choose_extent width height).height
              ≤ support.capabilities.maxImageExtent.height := by
  intro h
  exact absurd (h ⟨stale_capabilities, [], []⟩ 250 250 (by decide) (by decide)).1 (by decide)

/-- C6, amended: when the bounds are ordered component-wise and the current
extent of the surface is either undefined (width `0xFFFFFFFF`) or itself within
the bounds, the extent chosen lies within the bounds for every framebuffer
size of the window. -/
theorem choose_extent_within_bounds (support : swapchain_support_details) (width height : Int)
    (hw : support.capabilities.minImageExtent.width ≤ support.capabilities.maxImageExtent.width)
    (hh : support.capabilities.minImageExtent.height ≤ support.capabilities.maxImageExtent.height)
    (hcurrent : support.capabilities.currentExtent.width = uint32_max
      ∨ (support.capabilities.minImageExtent.width ≤ support.capabilities.currentExtent.width
        ∧ support.capabilities.currentExtent.width ≤ support.capabilities.maxImageExtent.width
        ∧ support.capabilities.minImageExtent.height ≤ support.capabilities.currentExtent.height
        ∧ support.capabilities.currentExtent.height
            ≤ support.capabilities.maxImageExtent.height)) :
    support.capabilities.minImageExtent.width ≤ (support.choose_extent width height).width
      ∧ (support.choose_extent width height).width ≤ support.capabilities.maxImageExtent.width
      ∧ support.capabilities.minImageExtent.height ≤ (support.choose_extent width height).height
      ∧ (support.choose_extent width height).height
          ≤ support.capabilities.maxImageExtent.height := by
  unfold swapchain_support_details.choose_extent
  by_cases hs : support.capabilities.currentExtent.width = uint32_max
  · simp only [hs, ne_eq, not_true_eq_false, if_false]
    exact ⟨(clamp_mem _ _ _ hw).1, (clamp_mem _ _ _ hw).2,
      (clamp_mem _ _ _ hh).1, (clamp_mem _ _ _ hh).2⟩
  · simp only [hs, ne_eq, not_false_eq_true, if_true]
    rcases hcurrent with hc | hc
    · exact absurd hc hs
    · exact hc

/-- C6, amended, at an undefined current extent and a window of 5000 x 10. -/
theorem choose_extent_within_bounds_witness :
    (unbounded_capabilities 2).minImageExtent.width
        ≤ (swapchain_support_details.choose_extent ⟨unbounded_capabilities 2, [], []⟩ 5000 10).width
      ∧ (swapchain_support_details.choose_extent ⟨unbounded_capabilities 2, [], []⟩ 5000 10).width
        ≤ (unbounded_capabilities 2).maxImageExtent.width
      ∧ (unbounded_capabilities 2).minImageExtent.height
        ≤ (swapchain_support_details.choose_extent ⟨unbounded_capabilities 2, [], []⟩ 5000 10).height
      ∧ (swapchain_support_details.choose_extent ⟨unbounded_capabilities 2, [], []⟩ 5000 10).height
        ≤ (unbounded_capabilities 2).maxImageExtent.height :=
  choose_extent_within_bounds ⟨unbounded_capabilities 2, [], []⟩ 5000 10
    (by decide) (by decide) (Or.inl rfl)

/-! ## The frame loop -/

theorem continues_refl (app : application) : continues app app :=
  ⟨rfl, rfl, [], by simp⟩

theorem continues_trans {a b c : application} (h1 : continues a b) (h2 : continues b c) :
    continues a c := by
  obtain ⟨f1, l1, r1, t1⟩ := h1
  obtain ⟨f2, l2, r2, t2⟩ := h2
  exact ⟨f2.trans f1, l2.trans l1, r1 ++ r2, by rw [t2, t1, List.append_assoc]⟩

theorem continues_emit (app : application) (c : call) : continues app (app.emit c) :=
  ⟨rfl, rfl, [c], rfl⟩

theorem and_then_continues {α β : Type} (a : application) (x : error_or α × application)
    (f : α → step β) (hx : continues a x.2) (hf : ∀ v w, continues w (f v w).2) :
    continues a (and_then x f).2 := by
  unfold and_then
  cases h : x.1 with
  | ok v => exact continues_trans hx (hf v x.2)
  | error e => exact hx

theorem or_else_continues {α : Type} (a : application) (x : error_or α × application)
    (f : error → step α) (hx : continues a x.2) (hf : ∀ e w, continues w (f e w).2) :
    continues a (or_else x f).2 := by
  unfold or_else
  cases h : x.1 with
  | ok v => exact hx
  | error e => exact continues_trans hx (hf e x.2)

theorem wait_all_continues (r : VkResult) (fence : Nat) (w : application) :
    continues w (device.wait_all r fence w).2 := by
  unfold device.wait_all continues
  split_ifs <;> simp [application.emit]

theorem acquire_continues (drv : frame_driver) (w : application) :
    continues w (acquire_next_image drv w).2 := by
  unfold acquire_next_image swapchain.acquire_next_image continues
  split_ifs <;> simp [application.emit]

theorem reset_fences_continues (drv : frame_driver) (i : Nat) (w : application) :
    continues w (reset_fences drv i w).2 := by
  unfold reset_fences device.reset continues
  split_ifs <;> simp [application.emit]

theorem reset_command_buffer_continues (drv : frame_driver) (i : Nat) (w : application) :
    continues w (reset_command_buffer drv i w).2 := by
  unfold reset_command_buffer command_buffer.reset continues
  split_ifs <;> simp [application.emit]

theorem record_command_continues (drv : frame_driver) (i : Nat) (w : application) :
    continues w (record_command drv i w).2 := by
  unfold record_command command_buffer.record draw continues
  split_ifs <;> simp [application.emit]

theorem submit_command_continues (drv : frame_driver) (i : Nat) (w : application) :
    continues w (submit_command drv i w).2 := by
  unfold submit_command device.submit continues
  split_ifs <;> simp [application.emit]

theorem present_image_continues (drv : frame_driver) (i : Nat) (w : application) :
    continues w (present_image drv i w).2 := by
  unfold present_image present continues
  split_ifs <;> simp [application.emit]

theorem device_wait_continues (r : VkResult) (w : application) :
    continues w (device.wait r w).2 := by
  unfold device.wait continues
  split_ifs <;> simp [application.emit]

theorem recreate_swapchain_continues (drv : frame_driver) (e : error) (w : application) :
    continues w (recreate_swapchain drv e w).2 := by
  unfold recreate_swapchain
  split_ifs
  · exact continues_refl _
  · apply and_then_continues _ _ _ (device_wait_continues _ _)
    intro _ w2
    unfold continues
    dsimp only
    split <;> simp [application.emit]

theorem frame_chain_continues (drv : frame_driver) (app : application) :
    continues app (frame_chain drv app).2 := by
  unfold frame_chain
  apply or_else_continues _ _ _ _ (recreate_swapchain_continues drv)
  apply and_then_continues _ _ _ _ (present_image_continues drv)
  apply and_then_continues _ _ _ _ (submit_command_continues drv)
  apply and_then_continues _ _ _ _ (record_command_continues drv)
  apply and_then_continues _ _ _ _ (reset_command_buffer_continues drv)
  apply and_then_continues _ _ _ _ (reset_fences_continues drv)
  apply and_then_continues _ _ _ _ (fun _ => acquire_continues drv)
  exact wait_all_continues _ _ _

theorem transform_error_panic_snd {α : Type} (x : error_or α × application) :
    (transform_error_panic x).2 = x.2 := by
  unfold transform_error_panic
  cases x.1 <;> rfl

/-- An iteration that returns advances `frame` and appends `glfwPollEvents`;
one that throws leaves `frame` as it was. -/
theorem iteration_frame (drv : frame_driver) (app : application) :
    ((iteration drv app).1 = .ok () ∧ (iteration drv app).2.frame = (app.frame + 1) % 2)
      ∨ ((∃ t, (iteration drv app).1 = .error t) ∧ (iteration drv app).2.frame = app.frame) := by
  have hc := (frame_chain_continues drv app).1
  have hs := transform_error_panic_snd (frame_chain drv app)
  unfold iteration
  rcases h : transform_error_panic (frame_chain drv app) with ⟨r, w⟩
  rw [h] at hs
  simp only at hs
  cases r with
  | error t => right; exact ⟨⟨t, rfl⟩, by simp only [hs, hc]⟩
  | ok u =>
    left
    refine ⟨rfl, ?_⟩
    simp only [application.emit, hs, hc]
    omega

theorem iteration_length (drv : frame_driver) (app : application) :
    (iteration drv app).2.frame_completed.length = app.frame_completed.length := by
  have hc := (frame_chain_continues drv app).2.1
  have hs := transform_error_panic_snd (frame_chain drv app)
  unfold iteration
  rcases h : transform_error_panic (frame_chain drv app) with ⟨r, w⟩
  rw [h] at hs
  simp only at hs
  cases r <;> simp only [application.emit, hs, hc]

theorem loop_length (frames : List frame_driver) :
    ∀ app : application,
      (loop frames app).2.frame_completed.length = app.frame_completed.length := by
  induction frames with
  | nil => intro app; rfl
  | cons drv rest ih =>
    intro app
    have hl := iteration_length drv app
    unfold loop
    rcases h : iteration drv app with ⟨r, w⟩
    rw [h] at hl
    cases r with
    | error t => exact hl
    | ok u => simp only; rw [ih w]; exact hl

theorem loop_frame (frames : List frame_driver) :
    ∀ app : application, app.frame < 2 → (loop frames app).1 = .ok () →
      (loop frames app).2.frame = (app.frame + frames.length) % 2 := by
  induction frames with
  | nil => intro app h _; simp only [loop, List.length_nil, Nat.add_zero]; omega
  | cons drv rest ih =>
    intro app hlt hok
    have hf := iteration_frame drv app
    unfold loop at hok ⊢
    rcases h : iteration drv app with ⟨r, w⟩
    rw [h] at hf hok
    cases r with
    | error t => simp at hok
    | ok u =>
      simp only at hok ⊢
      rcases hf with ⟨-, hw⟩ | ⟨⟨t, ht⟩, -⟩
      · simp only at hw
        rw [ih w (by omega) hok, hw, List.length_cons]
        omega
      · simp at ht

theorem frame_chain_success (drv : frame_driver) (app : application) (h : drv.succeeds) :
    frame_chain drv app = (.ok (),
      { app with
        frame_completed := app.frame_completed.set app.frame .pending
        trace := app.trace ++ frame_calls app drv.vkAcquireNextImageKHR.2 }) := by
  obtain ⟨h1, h2, h3, h4, h5, h6, h7, h8⟩ := h
  simp [frame_chain, and_then, or_else, device.wait_all, acquire_next_image,
    swapchain.acquire_next_image, reset_fences, device.reset, reset_command_buffer,
    command_buffer.reset, record_command, command_buffer.record, draw, submit_command,
    device.submit, present_image, present, application.emit, frame_calls,
    h1, h2, h3, h4, h5, h6, h7, h8]

theorem iteration_success (drv : frame_driver) (app : application) (h : drv.succeeds) :
    (iteration drv app).1 = .ok ()
      ∧ (iteration drv app).2.frame = (app.frame + 1) % 2
      ∧ (iteration drv app).2.frame_completed = app.frame_completed.set app.frame .pending := by
  unfold iteration
  rw [frame_chain_success drv app h]
  simp only [transform_error_panic, application.emit]
  refine ⟨trivial, ?_, trivial⟩
  omega

theorem loop_success (frames : List frame_driver) :
    ∀ (k : Nat) (app : application), steady k app → (∀ drv ∈ frames, drv.succeeds) →
      (loop frames app).1 = .ok () ∧ steady (k + frames.length) (loop frames app).2 := by
  induction frames with
  | nil => intro k app hs _; exact ⟨rfl, by simpa using hs⟩
  | cons drv rest ih =>
    intro k app hs hall
    obtain ⟨hok, hframe, hfences⟩ := iteration_success drv app (hall drv (List.mem_cons_self _ _))
    have hnext : steady (k + 1) (iteration drv app).2 := by
      unfold steady at hs ⊢
      rw [hframe, hfences]
      rcases hs with ⟨hk, hf, hc⟩ | ⟨hk, hf, hc⟩ | ⟨hk, hf, hc⟩
      · right; left; subst hk; simp [hf, hc]
      · right; right; subst hk; simp [hf, hc]
      · right; right
        refine ⟨by omega, by omega, ?_⟩
        rw [hc, hf]
        rcases Nat.mod_two_eq_zero_or_one k with h2 | h2 <;> simp [h2]
    unfold loop
    rcases h : iteration drv app with ⟨r, w⟩
    rw [h] at hok hnext
    simp only at hok
    subst hok
    simp only
    have := ih (k + 1) w hnext (fun d hd => hall d (List.mem_cons_of_mem _ hd))
    rw [List.length_cons, show k + (rest.length + 1) = k + 1 + rest.length by omega]
    exact this

theorem steady_pending (k : Nat) (app : application) (h : steady k app) :
    pending_fences app = min k 2 := by
  unfold steady at h
  unfold pending_fences
  rcases h with ⟨hk, -, hc⟩ | ⟨hk, -, hc⟩ | ⟨hk, -, hc⟩
  · subst hk; rw [hc]; decide
  · subst hk; rw [hc]; decide
  · rw [hc, Nat.min_eq_right hk]; decide

theorem pending_le (app : application) : pending_fences app ≤ app.frame_completed.length :=
  List.countP_le_length _

/-- Whatever the first step left, the rest of the chain only extends it. -/
theorem chain_tail_continues (drv : frame_driver) (x : error_or Unit × application) :
    continues x.2
      (or_else
        (and_then
          (and_then
            (and_then
              (and_then
                (and_then
                  (and_then x (fun _ => acquire_next_image drv))
                  (reset_fences drv))
                (reset_command_buffer drv))
              (record_command drv))
            (submit_command drv))
          (present_image drv))
        (recreate_swapchain drv)).2 := by
  apply or_else_continues _ _ _ _ (recreate_swapchain_continues drv)
  apply and_then_continues _ _ _ _ (present_image_continues drv)
  apply and_then_continues _ _ _ _ (submit_command_continues drv)
  apply and_then_continues _ _ _ _ (record_command_continues drv)
  apply and_then_continues _ _ _ _ (reset_command_buffer_continues drv)
  apply and_then_continues _ _ _ _ (reset_fences_continues drv)
  apply and_then_continues _ _ _ _ (fun _ => acquire_continues drv)
  exact continues_refl _

theorem wait_all_trace (r : VkResult) (fence : Nat) (app : application) :
    (device.wait_all r fence app).2.trace = app.trace ++ [.vkWaitForFences fence] := by
  unfold device.wait_all
  split_ifs <;> rfl

theorem iteration_trace (drv : frame_driver) (app : application) :
    ∃ rest, (iteration drv app).2.trace = (frame_chain drv app).2.trace ++ rest
      ∧ ∀ c ∈ rest, c = .glfwPollEvents := by
  have hs := transform_error_panic_snd (frame_chain drv app)
  unfold iteration
  rcases h : transform_error_panic (frame_chain drv app) with ⟨r, w⟩
  rw [h] at hs
  simp only at hs
  cases r with
  | error t => exact ⟨[], by simp [hs], by simp⟩
  | ok u => exact ⟨[.glfwPollEvents], by simp [hs, application.emit], by simp⟩

theorem frame_chain_wait_failed (drv : frame_driver) (app : application)
    (hw : drv.vkWaitForFences ≠ VK_SUCCESS) :
    frame_chain drv app
      = recreate_swapchain drv
          (if drv.vkWaitForFences ≠ VK_TIMEOUT then ⟨drv.vkWaitForFences⟩ else error.timeout)
          (app.emit (.vkWaitForFences app.frame)) := by
  simp [frame_chain, and_then, or_else, device.wait_all, hw]

/-- The recovery step makes no call that reuses the resources of a slot. -/
theorem recreate_swapchain_trace (drv : frame_driver) (e : error) (w : application) :
    ∃ rest, (recreate_swapchain drv e w).2.trace = w.trace ++ rest
      ∧ ∀ c ∈ rest, c.reuses_slot = false := by
  unfold recreate_swapchain
  by_cases he : e = error.out_of_date
  · exact ⟨[], by simp [he], by simp⟩
  · by_cases hidle : drv.vkDeviceWaitIdle = VK_SUCCESS
    · rcases hc : swapchain.create drv.recreate w.device_ w.surface with err | created
      · refine ⟨[.vkDeviceWaitIdle, .vkCreateSwapchainKHR
          (swapchain_create_info drv.recreate.support w.surface
            drv.recreate.width drv.recreate.height)], ?_, by simp [call.reuses_slot]⟩
        simp [he, and_then, device.wait, hidle, application.emit, hc]
      · refine ⟨[.vkDeviceWaitIdle, .vkCreateSwapchainKHR
          (swapchain_create_info drv.recreate.support w.surface
            drv.recreate.width drv.recreate.height)], ?_, by simp [call.reuses_slot]⟩
        simp [he, and_then, device.wait, hidle, application.emit, hc]
    · refine ⟨[.vkDeviceWaitIdle], ?_, by simp [call.reuses_slot]⟩
      simp [he, and_then, device.wait, hidle, application.emit]

theorem iteration_waits_first (drv : frame_driver) (app : application) :
    ∃ rest, (iteration drv app).2.trace = app.trace ++ .vkWaitForFences app.frame :: rest
      ∧ (drv.vkWaitForFences ≠ VK_SUCCESS → ∀ c ∈ rest, c.reuses_slot = false) := by
  obtain ⟨tail, htail, hpoll⟩ := iteration_trace drv app
  by_cases hw : drv.vkWaitForFences = VK_SUCCESS
  · obtain ⟨-, -, mid, hmid⟩ :=
      chain_tail_continues drv (device.wait_all drv.vkWaitForFences app.frame app)
    refine ⟨mid ++ tail, ?_, fun h => absurd hw h⟩
    rw [htail]
    unfold frame_chain
    rw [hmid, wait_all_trace]
    simp
  · obtain ⟨mid, hmid, hquiet⟩ := recreate_swapchain_trace drv
      (if drv.vkWaitForFences ≠ VK_TIMEOUT then ⟨drv.vkWaitForFences⟩ else error.timeout)
      (app.emit (.vkWaitForFences app.frame))
    refine ⟨mid ++ tail, ?_, ?_⟩
    · rw [htail, frame_chain_wait_failed drv app hw, hmid]
      simp [application.emit]
    · intro _ c hc
      rcases List.mem_append.mp hc with hc | hc
      · exact hquiet c hc
      · rw [hpoll c hc]; rfl

theorem frame_chain_present_failed (drv : frame_driver) (app : application)
    (hsteps : drv.vkWaitForFences = VK_SUCCESS ∧ drv.vkAcquireNextImageKHR.1 = VK_SUCCESS
      ∧ drv.vkResetFences = VK_SUCCESS ∧ drv.vkResetCommandBuffer = VK_SUCCESS
      ∧ drv.vkBeginCommandBuffer = VK_SUCCESS ∧ drv.vkEndCommandBuffer = VK_SUCCESS
      ∧ drv.vkQueueSubmit = VK_SUCCESS)
    (hp : drv.vkQueuePresentKHR ≠ VK_SUCCESS) :
    frame_chain drv app
      = recreate_swapchain drv ⟨drv.vkQueuePresentKHR⟩
          { app with
            frame_completed := app.frame_completed.set app.frame .pending
            trace := app.trace ++ frame_calls app drv.vkAcquireNextImageKHR.2 } := by
  obtain ⟨h1, h2, h3, h4, h5, h6, h7⟩ := hsteps
  simp [frame_chain, and_then, or_else, device.wait_all, acquire_next_image,
    swapchain.acquire_next_image, reset_fences, device.reset, reset_command_buffer,
    command_buffer.reset, record_command, command_buffer.record, draw, submit_command,
    device.submit, present_image, present, application.emit, frame_calls,
    h1, h2, h3, h4, h5, h6, h7, hp]

theorem swapchain_create_ok (drv : swapchain_driver) (d : device) (surface : Nat)
    (h : drv.vkCreateSwapchainKHR.1 = VK_SUCCESS) :
    ∃ created, swapchain.create drv d surface = .ok created := by
  unfold swapchain.create
  simp [h]

theorem recreate_swapchain_rebuilds (drv : frame_driver) (e : error) (w : application)
    (he : e ≠ error.out_of_date) :
    ∃ rest, (recreate_swapchain drv e w).2.trace = w.trace ++ .vkDeviceWaitIdle :: rest
      ∧ (recreate_swapchain drv e w).2.frame = w.frame
      ∧ (drv.vkDeviceWaitIdle = VK_SUCCESS →
          rest = [.vkCreateSwapchainKHR (swapchain_create_info drv.recreate.support w.surface
            drv.recreate.width drv.recreate.height)])
      ∧ (drv.vkDeviceWaitIdle = VK_SUCCESS → drv.recreate.vkCreateSwapchainKHR.1 = VK_SUCCESS →
          (recreate_swapchain drv e w).1 = .ok ()
            ∧ swapchain.create drv.recreate w.device_ w.surface
                = .ok (recreate_swapchain drv e w).2.swapchain_) := by
  unfold recreate_swapchain
  by_cases hidle : drv.vkDeviceWaitIdle = VK_SUCCESS
  · rcases hc : swapchain.create drv.recreate w.device_ w.surface with err | created
    · refine ⟨_, ?_, ?_, fun _ => rfl, ?_⟩
      · simp [he, and_then, device.wait, hidle, application.emit, hc]
      · simp [he, and_then, device.wait, hidle, application.emit, hc]
      · intro _ hcreate
        obtain ⟨created, hcreated⟩ := swapchain_create_ok drv.recreate w.device_ w.surface hcreate
        rw [hcreated] at hc
        cases hc
    · refine ⟨_, ?_, ?_, fun _ => rfl, ?_⟩
      · simp [he, and_then, device.wait, hidle, application.emit, hc]
      · simp [he, and_then, device.wait, hidle, application.emit, hc]
      · intro _ _
        simp [he, and_then, device.wait, hidle, application.emit, hc]
  · refine ⟨[], ?_, ?_, fun h => absurd h hidle, fun h => absurd h hidle⟩
    · simp [he, and_then, device.wait, hidle, application.emit]
    · simp [he, and_then, device.wait, hidle, application.emit]

theorem iteration_of_chain_ok (drv : frame_driver) (app : application)
    (h : (frame_chain drv app).1 = .ok ()) :
    (iteration drv app).1 = .ok ()
      ∧ (iteration drv app).2.swapchain_ = (frame_chain drv app).2.swapchain_
      ∧ (iteration drv app).2.trace = (frame_chain drv app).2.trace ++ [.glfwPollEvents] := by
  unfold iteration transform_error_panic
  rw [h]
  simp [application.emit]

theorem loop_cons_ok (drv : frame_driver) (rest : List frame_driver) (app : application)
    (h : (iteration drv app).1 = .ok ()) :
    loop (drv :: rest) app = loop rest (iteration drv app).2 := by
  conv_lhs => unfold loop
  rcases hi : iteration drv app with ⟨r, w⟩
  rw [hi] at h
  simp only at h
  subst h
  rfl

theorem device_wait_frame (r : VkResult) (w : application) :
    (transform_error_panic (device.wait r w)).2.frame = w.frame := by
  rw [transform_error_panic_snd]
  exact (device_wait_continues r w).1

theorem run_frame (drv : run_driver) (app : application) (h : (run drv app).1 = .ok ()) :
    (run drv app).2.frame = drv.frames.length % 2 := by
  unfold run at h ⊢
  split at h
  · simp at h
  · split at h
    · simp at h
    · simp at h
    · rename_i first second _ _
      rcases hl : loop drv.frames { app with frame := 0, frame_completed := [first, second] }
        with ⟨r, w⟩
      rw [hl] at h
      cases r with
      | error t => simp at h
      | ok u =>
        simp only
        rw [device_wait_frame]
        have := loop_frame drv.frames
          { app with frame := 0, frame_completed := [first, second] } (by simp) (by rw [hl])
        rw [hl] at this
        simpa using this

/-- C1, evaluated: `recreate_swapchain` hands `out_of_date` back untouched in
every state; when image acquisition reports `out_of_date` the iteration
ends in `panic`, which throws "out-of-date"; the trace holds the fence wait and
the acquisition only, so the device is not waited on and no swapchain is
created.  The same happens when presentation reports `out_of_date`, after the
calls of the frame.  In both cases the owned swapchain is the old one. -/
theorem out_of_date_is_fatal :
    (∀ (drv : frame_driver) (app : application),
        recreate_swapchain drv error.out_of_date app = (.error error.out_of_date, app))
      ∧ panic error.out_of_date = .runtime_error "out-of-date"
      ∧ (iteration out_of_date_acquire sample_application).1
        = .error (.runtime_error "out-of-date")
      ∧ (iteration out_of_date_acquire sample_application).2.trace
        = [.vkWaitForFences 0, .vkAcquireNextImageKHR 100 0]
      ∧ (iteration out_of_date_acquire sample_application).2.swapchain_
        = sample_application.swapchain_
      ∧ (iteration out_of_date_present sample_application).1
        = .error (.runtime_error "out-of-date")
      ∧ (iteration out_of_date_present sample_application).2.trace
        = frame_calls sample_application 1
      ∧ (iteration out_of_date_present sample_application).2.swapchain_
        = sample_application.swapchain_
      ∧ (loop [out_of_date_acquire, smooth_frame] sample_application).1
        = .error (.runtime_error "out-of-date") := by
  refine ⟨fun drv app => by simp [recreate_swapchain], rfl, rfl, ?_, ?_, rfl, ?_, ?_, rfl⟩
    <;> decide

/-- C8, evaluated: when the fence wait reports `device_lost` the iteration waits
for the device, creates a swapchain, replaces the owned one, polls events and
returns, and the loop goes on with the next iteration; the same happens when
the submission reports `no_device_memory`. -/
theorem device_lost_is_recovered :
    (iteration device_lost_wait sample_application).1 = .ok ()
      ∧ (iteration device_lost_wait sample_application).2.trace
        = [.vkWaitForFences 0, .vkDeviceWaitIdle,
           .vkCreateSwapchainKHR ⟨0, 3, 50, 0, ⟨300, 300⟩, 1, 2⟩, .glfwPollEvents]
      ∧ (iteration device_lost_wait sample_application).2.swapchain_.swapchain_ = 101
      ∧ (iteration device_lost_wait sample_application).2.frame = 1
      ∧ (loop [device_lost_wait, smooth_frame] sample_application).1 = .ok ()
      ∧ (loop [device_lost_wait, smooth_frame] sample_application).2.trace
        = [.vkWaitForFences 0, .vkDeviceWaitIdle,
           .vkCreateSwapchainKHR ⟨0, 3, 50, 0, ⟨300, 300⟩, 1, 2⟩, .glfwPollEvents]
          ++ frame_calls (iteration device_lost_wait sample_application).2 1
          ++ [.glfwPollEvents]
      ∧ (iteration no_memory_submit sample_application).1 = .ok ()
      ∧ (iteration no_memory_submit sample_application).2.swapchain_.swapchain_ = 101 := by
  refine ⟨rfl, ?_, ?_, ?_, rfl, ?_, rfl, ?_⟩ <;> decide

/-- C9: in an iteration whose steps up to the submission succeed and whose
presentation reports `VK_SUBOPTIMAL_KHR`, the calls of the frame are followed by
`vkDeviceWaitIdle` and, when that succeeds, by `vkCreateSwapchainKHR`; when
both succeed the iteration returns normally, the owned swapchain is the one
`swapchain::create` built, `frame` advances, and the loop goes on with the
remaining iterations. -/
theorem suboptimal_present_recreates (drv : frame_driver) (app : application)
    (hsteps : drv.vkWaitForFences = VK_SUCCESS ∧ drv.vkAcquireNextImageKHR.1 = VK_SUCCESS
      ∧ drv.vkResetFences = VK_SUCCESS ∧ drv.vkResetCommandBuffer = VK_SUCCESS
      ∧ drv.vkBeginCommandBuffer = VK_SUCCESS ∧ drv.vkEndCommandBuffer = VK_SUCCESS
      ∧ drv.vkQueueSubmit = VK_SUCCESS)
    (hp : drv.vkQueuePresentKHR = VK_SUBOPTIMAL_KHR) :
    (∃ rest, (iteration drv app).2.trace
          = app.trace ++ frame_calls app drv.vkAcquireNextImageKHR.2 ++ .vkDeviceWaitIdle :: rest
        ∧ (drv.vkDeviceWaitIdle = VK_SUCCESS →
            ∃ more, rest = .vkCreateSwapchainKHR (swapchain_create_info drv.recreate.support
              app.surface drv.recreate.width drv.recreate.height) :: more))
      ∧ (drv.vkDeviceWaitIdle = VK_SUCCESS → drv.recreate.vkCreateSwapchainKHR.1 = VK_SUCCESS →
          (iteration drv app).1 = .ok ()
            ∧ swapchain.create drv.recreate app.device_ app.surface
                = .ok (iteration drv app).2.swapchain_
            ∧ (iteration drv app).2.frame = (app.frame + 1) % 2
            ∧ ∀ more, loop (drv :: more) app = loop more (iteration drv app).2) := by
  have hne : drv.vkQueuePresentKHR ≠ VK_SUCCESS := by rw [hp]; decide
  have hchain := frame_chain_present_failed drv app hsteps hne
  have he : (⟨drv.vkQueuePresentKHR⟩ : error) ≠ error.out_of_date := by rw [hp]; decide
  obtain ⟨rest, htrace, -, hcreate, hok⟩ := recreate_swapchain_rebuilds drv ⟨drv.vkQueuePresentKHR⟩
    { app with
      frame_completed := app.frame_completed.set app.frame .pending
      trace := app.trace ++ frame_calls app drv.vkAcquireNextImageKHR.2 } he
  rw [← hchain] at htrace hok
  obtain ⟨tail, htail, -⟩ := iteration_trace drv app
  refine ⟨⟨rest ++ tail, ?_, ?_⟩, ?_⟩
  · rw [htail, htrace]; simp
  · intro hidle
    exact ⟨tail, by rw [hcreate hidle]; rfl⟩
  · intro hidle hcreated
    obtain ⟨hchain_ok, hswap⟩ := hok hidle hcreated
    obtain ⟨hiter, hsame, -⟩ := iteration_of_chain_ok drv app hchain_ok
    refine ⟨hiter, ?_, ?_, fun more => loop_cons_ok drv more app hiter⟩
    · rw [hsame]; exact hswap
    · rcases iteration_frame drv app with ⟨-, hf⟩ | ⟨⟨t, ht⟩, -⟩
      · exact hf
      · rw [hiter] at ht; cases ht

/-- C9 at an iteration of the sample application whose presentation is
suboptimal and whose swapchain is rebuilt at 1024 x 768. -/
theorem suboptimal_present_recreates_witness :
    (∃ rest, (iteration suboptimal_present sample_application).2.trace
          = sample_application.trace
              ++ frame_calls sample_application suboptimal_present.vkAcquireNextImageKHR.2
              ++ .vkDeviceWaitIdle :: rest
        ∧ (suboptimal_present.vkDeviceWaitIdle = VK_SUCCESS →
            ∃ more, rest = .vkCreateSwapchainKHR
              (swapchain_create_info suboptimal_present.recreate.support
                sample_application.surface suboptimal_present.recreate.width
                suboptimal_present.recreate.height) :: more))
      ∧ (suboptimal_present.vkDeviceWaitIdle = VK_SUCCESS →
          suboptimal_present.recreate.vkCreateSwapchainKHR.1 = VK_SUCCESS →
          (iteration suboptimal_present sample_application).1 = .ok ()
            ∧ swapchain.create suboptimal_present.recreate sample_application.device_
                sample_application.surface
                = .ok (iteration suboptimal_present sample_application).2.swapchain_
            ∧ (iteration suboptimal_present sample_application).2.frame
                = (sample_application.frame + 1) % 2
            ∧ ∀ more, loop (suboptimal_present :: more) sample_application
                = loop more (iteration suboptimal_present sample_application).2) :=
  suboptimal_present_recreates suboptimal_present sample_application
    ⟨rfl, rfl, rfl, rfl, rfl, rfl, rfl⟩ rfl

/-- The loop keeps `frame` below 2, whether it returns or throws. -/
theorem loop_frame_lt (frames : List frame_driver) :
    ∀ app : application, app.frame < 2 → (loop frames app).2.frame < 2 := by
  induction frames with
  | nil => intro app h; exact h
  | cons drv rest ih =>
    intro app hlt
    have hf := iteration_frame drv app
    unfold loop
    rcases h : iteration drv app with ⟨r, w⟩
    rw [h] at hf
    cases r with
    | error t =>
      rcases hf with ⟨hok, -⟩ | ⟨-, hw⟩
      · simp at hok
      · simp only at hw ⊢
        omega
    | ok u =>
      rcases hf with ⟨-, hw⟩ | ⟨⟨t, ht⟩, -⟩
      · simp only at hw ⊢
        exact ih w (by omega)
      · simp at ht

/-- Once its semaphores and fences are created, `run` is the loop entered with
`frame = 0` and two signalled fences, followed by the wait on the device. -/
theorem run_enters_loop (drv : run_driver) (app : application)
    (hsemaphores : ∀ i, i < 4 → drv.vkCreateSemaphore i = VK_SUCCESS)
    (hfences : ∀ i, i < 2 → drv.vkCreateFence i = VK_SUCCESS) :
    run drv app
      = match loop drv.frames
            { app with frame := 0, frame_completed := [.signalled, .signalled] } with
        | (.error t, after) => (.error t, after)
        | (.ok _, after) => transform_error_panic (device.wait drv.vkDeviceWaitIdle after) := by
  have h0 := hsemaphores 0 (by omega)
  have h1 := hsemaphores 1 (by omega)
  have h2 := hsemaphores 2 (by omega)
  have h3 := hsemaphores 3 (by omega)
  have f0 := hfences 0 (by omega)
  have f1 := hfences 1 (by omega)
  have hs : first_failure ((List.range 4).map drv.vkCreateSemaphore) = none := by
    have : List.range 4 = [0, 1, 2, 3] := rfl
    rw [this]
    simp [first_failure, h0, h1, h2, h3]
  unfold run
  rw [hs]
  simp only [fence.create, f0, f1, ne_eq, not_true_eq_false, if_false]

/-- C10: for every application state, whatever `frame` held before, once the
semaphores and fences of `run` are created: after each number `k` of
iterations of this run the index is below 2, and it is `k mod 2` when those
`k` iterations completed; an iteration that returns, whether its steps
succeeded or the swapchain was recreated, replaces the index by
`(frame + 1) mod 2`, and one that throws leaves it; when all iterations
complete and the final wait succeeds, `run` returns with the index equal to
the number of iterations modulo 2, so with no iteration the index is 0; when
an iteration throws, `run` ends with what the loop threw. -/
theorem frame_index_rotates (drv : run_driver) (app : application)
    (hsemaphores : ∀ i, i < 4 → drv.vkCreateSemaphore i = VK_SUCCESS)
    (hfences : ∀ i, i < 2 → drv.vkCreateFence i = VK_SUCCESS) :
    (∀ k, k ≤ drv.frames.length →
        (loop (drv.frames.take k)
            { app with frame := 0, frame_completed := [.signalled, .signalled] }).2.frame < 2
          ∧ ((loop (drv.frames.take k)
                { app with frame := 0, frame_completed := [.signalled, .signalled] }).1 = .ok () →
              (loop (drv.frames.take k)
                { app with frame := 0, frame_completed := [.signalled, .signalled] }).2.frame
                = k % 2))
      ∧ (∀ step state,
          ((iteration step state).1 = .ok ()
              ∧ (iteration step state).2.frame = (state.frame + 1) % 2)
            ∨ ((∃ t, (iteration step state).1 = .error t)
              ∧ (iteration step state).2.frame = state.frame))
      ∧ ((loop drv.frames
              { app with frame := 0, frame_completed := [.signalled, .signalled] }).1 = .ok () →
          drv.vkDeviceWaitIdle = VK_SUCCESS →
          (run drv app).1 = .ok () ∧ (run drv app).2.frame = drv.frames.length % 2)
      ∧ (drv.frames = [] → (run drv app).2.frame = 0)
      ∧ (∀ t, (loop drv.frames
              { app with frame := 0, frame_completed := [.signalled, .signalled] }).1 = .error t →
          run drv app = loop drv.frames
              { app with frame := 0, frame_completed := [.signalled, .signalled] })
      ∧ (run drv app).2.frame < 2 := by
  have hrun := run_enters_loop drv app hsemaphores hfences
  have hall := loop_frame drv.frames
    { app with frame := 0, frame_completed := [.signalled, .signalled] } (by simp)
  have hlt := loop_frame_lt drv.frames
    { app with frame := 0, frame_completed := [.signalled, .signalled] } (by simp)
  refine ⟨?_, iteration_frame, ?_, ?_, ?_, ?_⟩
  · intro k hk
    refine ⟨loop_frame_lt _ _ (by simp), fun hok => ?_⟩
    have h := loop_frame (drv.frames.take k)
      { app with frame := 0, frame_completed := [.signalled, .signalled] } (by simp) hok
    rw [h, List.length_take]
    simp only [Nat.zero_add]
    rw [Nat.min_eq_left hk]
  · intro hok hwait
    rcases hl : loop drv.frames
        { app with frame := 0, frame_completed := [.signalled, .signalled] } with ⟨r, w⟩
    rw [hl] at hok hall hrun
    simp only at hok
    subst hok
    simp only at hrun
    rw [hrun, hwait]
    refine ⟨rfl, ?_⟩
    rw [device_wait_frame]
    simpa using hall rfl
  · intro hempty
    rw [hrun, hempty]
    simp only [loop]
    rw [device_wait_frame]
  · intro t ht
    rcases hl : loop drv.frames
        { app with frame := 0, frame_completed := [.signalled, .signalled] } with ⟨r, w⟩
    rw [hl] at ht hrun
    simp only at ht
    subst ht
    rw [hrun]
  · rw [hrun]
    rcases hl : loop drv.frames
        { app with frame := 0, frame_completed := [.signalled, .signalled] } with ⟨r, w⟩
    rw [hl] at hlt
    cases r with
    | error t => exact hlt
    | ok u =>
      simp only
      rw [device_wait_frame]
      exact hlt

/-- C10 at a run of three iterations, the second recovered by recreation,
entered from a state whose `frame` is 1: `run` returns and the index is 1. -/
theorem frame_index_rotates_witness :
    (∀ i, i < 4 → sample_run.vkCreateSemaphore i = VK_SUCCESS)
      ∧ (∀ i, i < 2 → sample_run.vkCreateFence i = VK_SUCCESS)
      ∧ ({ sample_application with frame := 1 } : application).frame = 1
      ∧ (run sample_run { sample_application with frame := 1 }).1 = .ok ()
      ∧ (run sample_run { sample_application with frame := 1 }).2.frame = 3 % 2
      ∧ (run { sample_run with frames := [] } { sample_application with frame := 1 }).2.frame
          = 0 :=
  ⟨fun _ _ => rfl, fun _ _ => rfl, rfl,
    ((frame_index_rotates sample_run { sample_application with frame := 1 }
      (fun _ _ => rfl) (fun _ _ => rfl)).2.2.1 rfl rfl).1,
    ((frame_index_rotates sample_run { sample_application with frame := 1 }
      (fun _ _ => rfl) (fun _ _ => rfl)).2.2.1 rfl rfl).2,
    (frame_index_rotates { sample_run with frames := [] } { sample_application with frame := 1 }
      (fun _ _ => rfl) (fun _ _ => rfl)).2.2.2.1 rfl⟩

/-- C7 as stated fails: after one iteration whose image acquisition reports a
suboptimal swapchain, recovered by recreation, the loop has completed one
iteration and no fence is pending, where `min(1, 2) = 1`. -/
theorem pending_fences_after_recovery :
    ¬ ∀ (frames : List frame_driver) (app : application),
        app.frame = 0 → app.frame_completed = [.signalled, .signalled] →
        (loop frames app).1 = .ok () →
        pending_fences (loop frames app).2 = min frames.length 2 := by
  intro h
  exact absurd (h [suboptimal_acquire] sample_application rfl rfl rfl) (by decide)

/-- C7, amended: started with `frame = 0` and both fences signalled, the loop
never has more than 2 pending fences; every iteration first waits on the fence
of its slot, and when that wait fails it makes no call that resets the fence or
resets, records or submits the command buffer of the slot; and after `N`
iterations in which every step succeeded exactly `min(N, 2)` fences are
pending. -/
theorem frames_in_flight (frames : List frame_driver) (app : application)
    (h0 : app.frame = 0) (hfences : app.frame_completed = [.signalled, .signalled]) :
    pending_fences (loop frames app).2 ≤ 2
      ∧ (∀ drv a, ∃ rest,
          (iteration drv a).2.trace = a.trace ++ .vkWaitForFences a.frame :: rest
            ∧ (drv.vkWaitForFences ≠ VK_SUCCESS → ∀ c ∈ rest, c.reuses_slot = false))
      ∧ ((∀ drv ∈ frames, drv.succeeds) →
          (loop frames app).1 = .ok ()
            ∧ pending_fences (loop frames app).2 = min frames.length 2) := by
  refine ⟨?_, iteration_waits_first, ?_⟩
  · have := pending_le (loop frames app).2
    rw [loop_length frames app, hfences] at this
    exact this
  · intro hall
    obtain ⟨hok, hsteady⟩ := loop_success frames 0 app (Or.inl ⟨rfl, h0, hfences⟩) hall
    refine ⟨hok, ?_⟩
    rw [steady_pending _ _ hsteady, Nat.zero_add]

/-- C7, amended, at three successful iterations of the sample application. -/
theorem frames_in_flight_witness :
    pending_fences (loop [smooth_frame, smooth_frame, smooth_frame] sample_application).2 ≤ 2
      ∧ (∀ drv a, ∃ rest,
          (iteration drv a).2.trace = a.trace ++ .vkWaitForFences a.frame :: rest
            ∧ (drv.vkWaitForFences ≠ VK_SUCCESS → ∀ c ∈ rest, c.reuses_slot = false))
      ∧ ((∀ drv ∈ [smooth_frame, smooth_frame, smooth_frame], drv.succeeds) →
          (loop [smooth_frame, smooth_frame, smooth_frame] sample_application).1 = .ok ()
            ∧ pending_fences (loop [smooth_frame, smooth_frame, smooth_frame] sample_application).2
                = min [smooth_frame, smooth_frame, smooth_frame].length 2) :=
  frames_in_flight [smooth_frame, smooth_frame, smooth_frame] sample_application rfl rfl

/-! ## Device queues, formats and present modes -/

/-- C11, evaluated: a device with surface formats and present modes but no
queue family that can present is selected; `find_present_queue` returns
nothing for it, and `device::create` succeeds, creating and fetching the queue
with family index 0, which is not a graphics and present family.  With no
required extension the same happens whatever dead storage holds. -/
theorem device_created_without_present_queue :
    find_present_queue headless_driver (sample_gpu 2) 0 = none
      ∧ device.create headless_driver [sample_gpu 2] 0 (fun _ => true) ["VK_KHR_swapchain"]
          = (.ok ⟨12, 7, sample_gpu 2⟩,
              [.vkCreateDevice 2 0 ["VK_KHR_swapchain"], .vkGetDeviceQueue 12 0])
      ∧ (¬ ∃ index, graphics_present_family headless_driver (sample_gpu 2) 0 index)
      ∧ ∀ dead_storage,
          device.create { headless_driver with dead_storage := dead_storage } [sample_gpu 2] 0
              (fun _ => true) []
            = (.ok ⟨12, 7, sample_gpu 2⟩, [.vkCreateDevice 2 0 [], .vkGetDeviceQueue 12 0]) := by
  refine ⟨by decide, rfl, ?_, fun _ => rfl⟩
  rintro ⟨index, family, -, -, h⟩
  simp [headless_driver] at h

/-- C12 as stated fails: a current extent of `0xFFFFFFFF` x 600 is not the
undefined sentinel, yet the answer is the clamped framebuffer size. -/
theorem choose_extent_tests_width_only :
    ¬ ∀ (support : swapchain_support_details) (width height : Int),
        ¬ (support.capabilities.currentExtent.width = uint32_max
            ∧ support.capabilities.currentExtent.height = uint32_max) →
        support.choose_extent width height = support.capabilities.currentExtent := by
  intro h
  exact absurd
    (h ⟨{ stale_capabilities with currentExtent := ⟨4294967295, 600⟩ }, [], []⟩ 250 250
      (by decide))
    (by decide)

/-- The function `std::clamp` with ordered bounds is the nearest value of the
interval. -/
theorem clamp_eq_max_min (v lo hi : Nat) (h : lo ≤ hi) : clamp v lo hi = max lo (min v hi) := by
  unfold clamp
  split_ifs <;> omega

/-- C12, amended: `choose_extent` returns the current extent unchanged whenever
its width is not `0xFFFFFFFF`, and otherwise returns the framebuffer size of the
window, converted to unsigned, clamped component-wise between the minimum and
maximum extent, which for ordered bounds is the nearest value of the interval. -/
theorem choose_extent_cases (support : swapchain_support_details) (width height : Int) :
    (support.capabilities.currentExtent.width ≠ uint32_max →
        support.choose_extent width height = support.capabilities.currentExtent)
      ∧ (support.capabilities.currentExtent.width = uint32_max →
          support.choose_extent width height
            = ⟨clamp (to_uint32 width) support.capabilities.minImageExtent.width
                  support.capabilities.maxImageExtent.width,
               clamp (to_uint32 height) support.capabilities.minImageExtent.height
                  support.capabilities.maxImageExtent.height⟩)
      ∧ (∀ v lo hi, lo ≤ hi → clamp v lo hi = max lo (min v hi)) := by
  refine ⟨fun h => ?_, fun h => ?_, clamp_eq_max_min⟩
  · simp [swapchain_support_details.choose_extent, h]
  · simp [swapchain_support_details.choose_extent, h]

/-- C12, amended, at a defined extent and at an undefined one. -/
theorem choose_extent_cases_witness :
    swapchain_support_details.choose_extent ⟨stale_capabilities, [], []⟩ 250 250 = ⟨100, 100⟩
      ∧ swapchain_support_details.choose_extent ⟨unbounded_capabilities 2, [], []⟩ 5000 10
          = ⟨300, 200⟩ :=
  ⟨(choose_extent_cases ⟨stale_capabilities, [], []⟩ 250 250).1 (by decide),
   (choose_extent_cases ⟨unbounded_capabilities 2, [], []⟩ 5000 10).2.1 rfl⟩

/-- C13: for a non-empty list of surface formats `choose_format` returns an
element of the list: the first entry that is B8G8R8A8_SRGB with SRGB_NONLINEAR
when there is one, and the first entry of the list otherwise. -/
theorem choose_format_prefers_srgb (support : swapchain_support_details)
    (h : support.formats ≠ []) :
    support.choose_format ∈ support.formats
      ∧ ((∃ format ∈ support.formats, preferred_format format) →
          preferred_format support.choose_format
            ∧ ∃ before after, support.formats = before ++ support.choose_format :: after
              ∧ ∀ x ∈ before, ¬ preferred_format x)
      ∧ ((∀ format ∈ support.formats, ¬ preferred_format format) →
          support.formats.head? = some support.choose_format) := by
  unfold swapchain_support_details.choose_format
  split
  · rename_i found hf
    obtain ⟨hp, before, after, hsplit, hbefore⟩ := List.find?_eq_some.mp hf
    have hpref : preferred_format found := by
      simpa [preferred_format] using hp
    refine ⟨by rw [hsplit]; simp, fun _ => ⟨hpref, before, after, hsplit, ?_⟩, ?_⟩
    · intro x hx hpx
      have := hbefore x hx
      simp [hpx.1, hpx.2] at this
    · intro hall
      exact absurd hpref (hall found (by rw [hsplit]; simp))
  · rename_i hf
    have hnone := List.find?_eq_none.mp hf
    have hnot : ∀ format ∈ support.formats, ¬ preferred_format format := by
      intro format hmem hp
      exact hnone format hmem (by simp [hp.1, hp.2])
    obtain ⟨first, rest, hcons⟩ := List.exists_cons_of_ne_nil h
    refine ⟨by simp [hcons], ?_, fun _ => by simp [hcons]⟩
    rintro ⟨format, hmem, hp⟩
    exact absurd hp (hnot format hmem)

/-- C13 at a list whose second entry is the preferred format. -/
theorem choose_format_prefers_srgb_witness :
    swapchain_support_details.choose_format ⟨stale_capabilities, [⟨44, 0⟩, ⟨50, 0⟩, ⟨50, 0⟩], []⟩
        ∈ [(⟨44, 0⟩ : VkSurfaceFormatKHR), ⟨50, 0⟩, ⟨50, 0⟩]
      ∧ swapchain_support_details.choose_format
          ⟨stale_capabilities, [⟨44, 0⟩, ⟨50, 0⟩, ⟨50, 0⟩], []⟩ = ⟨50, 0⟩ :=
  ⟨(choose_format_prefers_srgb ⟨stale_capabilities, [⟨44, 0⟩, ⟨50, 0⟩, ⟨50, 0⟩], []⟩
      (by decide)).1, by decide⟩

/-- C14: for every list of present modes, the empty one included,
`choose_present_mode` is MAILBOX when the list contains MAILBOX and FIFO
otherwise; so it is MAILBOX exactly when the list contains MAILBOX. -/
theorem choose_present_mode_mailbox_or_fifo (support : swapchain_support_details) :
    support.choose_present_mode
        = (if VK_PRESENT_MODE_MAILBOX_KHR ∈ support.present_modes
            then VK_PRESENT_MODE_MAILBOX_KHR else VK_PRESENT_MODE_FIFO_KHR)
      ∧ (support.choose_present_mode = VK_PRESENT_MODE_MAILBOX_KHR
          ↔ VK_PRESENT_MODE_MAILBOX_KHR ∈ support.present_modes) := by
  have key : support.choose_present_mode
      = (if VK_PRESENT_MODE_MAILBOX_KHR ∈ support.present_modes
          then VK_PRESENT_MODE_MAILBOX_KHR else VK_PRESENT_MODE_FIFO_KHR) := by
    unfold swapchain_support_details.choose_present_mode
    split
    · rename_i found hf
      have hmem := List.mem_of_find?_eq_some hf
      have hp := List.find?_some hf
      have heq : found = VK_PRESENT_MODE_MAILBOX_KHR := by simpa using hp
      subst heq
      simp [hmem]
    · rename_i hf
      have hnone := List.find?_eq_none.mp hf
      have : VK_PRESENT_MODE_MAILBOX_KHR ∉ support.present_modes := by
        intro hmem
        exact hnone _ hmem (by simp)
      simp [this]
  refine ⟨key, ?_⟩
  rw [key]
  by_cases hmem : VK_PRESENT_MODE_MAILBOX_KHR ∈ support.present_modes
  · simp [hmem]
  · simp [hmem]; decide

/-! ## Fatal errors and diagnostics -/

/-- C18, evaluated: `swapchain::create` returns `surface_lost` when the driver
reports it, and `panic` has no case for `surface_lost` nor for
`native_window_in_use`: control reaches `std::unreachable()` and nothing is
thrown. -/
theorem panic_reaches_unreachable :
    swapchain.create { resized with vkCreateSwapchainKHR := (VK_ERROR_SURFACE_LOST_KHR, 0) }
        sample_application.device_ 0 = .error error.surface_lost
      ∧ panic error.surface_lost = .unreachable
      ∧ panic error.native_window_in_use = .unreachable
      ∧ (transform_error_panic
          ((.error error.surface_lost, sample_application) :
            error_or Unit × application)).1 = .error .unreachable := by
  refine ⟨rfl, by decide, by decide, rfl⟩

/-- C19: the default sink returns `VK_FALSE` for every severity, message
category and message. -/
theorem log_returns_false (severity message_type : Nat) (pMessage : String) :
    (debug_utils.log severity message_type pMessage).1 = VK_FALSE := rfl

/-! ## Buffers -/

/-- The loop of `find_memory_type` returns the least compatible index of its
range, or nothing when the range holds none. -/
theorem find_memory_type_from_spec (filter properties : Nat)
    (mp : VkPhysicalDeviceMemoryProperties) :
    ∀ (remaining i : Nat), i + remaining = mp.memoryTypeCount →
      (∀ j, find_memory_type_from filter properties mp remaining i = some j →
          i ≤ j ∧ compatible_memory_type filter properties mp j
            ∧ ∀ k, i ≤ k → k < j → ¬ compatible_memory_type filter properties mp k)
        ∧ (find_memory_type_from filter properties mp remaining i = none →
            ∀ k, i ≤ k → ¬ compatible_memory_type filter properties mp k) := by
  intro remaining
  induction remaining with
  | zero =>
    intro i hi
    refine ⟨fun j h => by simp [find_memory_type_from] at h, fun _ k hk hc => ?_⟩
    have := hc.1
    omega
  | succ n ih =>
    intro i hi
    unfold find_memory_type_from
    by_cases hp : filter &&& (1 <<< i) ≠ 0
        ∧ (mp.memoryTypes.getD i ⟨0, 0⟩).propertyFlags &&& properties = properties
    · rw [if_pos hp]
      refine ⟨fun j h => ?_, fun h => by cases h⟩
      simp only [Option.some.injEq] at h
      subst h
      exact ⟨le_refl _, ⟨by omega, hp.1, hp.2⟩, fun k h1 h2 => by omega⟩
    · rw [if_neg hp]
      obtain ⟨ih1, ih2⟩ := ih (i + 1) (by omega)
      refine ⟨fun j h => ?_, fun h k hk hc => ?_⟩
      · obtain ⟨hle, hcj, hmin⟩ := ih1 j h
        refine ⟨by omega, hcj, fun k h1 h2 hc => ?_⟩
        rcases Nat.eq_or_lt_of_le h1 with heq | hlt
        · subst heq; exact hp ⟨hc.2.1, hc.2.2⟩
        · exact hmin k hlt h2 hc
      · rcases Nat.eq_or_lt_of_le hk with heq | hlt
        · subst heq; exact hp ⟨hc.2.1, hc.2.2⟩
        · exact ih2 h k hlt hc

/-- The function `find_memory_type` returns the least compatible index, and
nothing exactly when there is none. -/
theorem find_memory_type_spec (filter properties : Nat) (mp : VkPhysicalDeviceMemoryProperties) :
    (∀ j, find_memory_type filter properties mp = some j →
        compatible_memory_type filter properties mp j
          ∧ ∀ k, k < j → ¬ compatible_memory_type filter properties mp k)
      ∧ (find_memory_type filter properties mp = none ↔
          ∀ k, ¬ compatible_memory_type filter properties mp k) := by
  obtain ⟨h1, h2⟩ := find_memory_type_from_spec filter properties mp mp.memoryTypeCount 0
    (by omega)
  unfold find_memory_type
  refine ⟨fun j h => ⟨(h1 j h).2.1, fun k hk => (h1 j h).2.2 k (Nat.zero_le _) hk⟩,
    fun h k => h2 h k (Nat.zero_le _), fun h => ?_⟩
  rcases hf : find_memory_type_from filter properties mp mp.memoryTypeCount 0 with _ | j
  · rfl
  · exact absurd (h1 j hf).2.1 (h j)

/-- C17: once `vkCreateBuffer` has succeeded, `buffer::create` returns
`no_device_memory` and never calls `vkAllocateMemory` when no index below
`memoryTypeCount` has its bit set in the buffer's `memoryTypeBits` and all
requested property flags; when such an index exists, `find_memory_type` returns
a compatible index and `vkAllocateMemory` is called with that index and no
other. -/
theorem buffer_create_memory_type (drv : buffer_driver) (d : device)
    (usage properties size : Nat) (hcreate : drv.vkCreateBuffer.1 = VK_SUCCESS) :
    ((∀ i, ¬ compatible_memory_type drv.vkGetBufferMemoryRequirements.memoryTypeBits properties
          d.physical_device_.memory_properties i) →
        (buffer.create drv d usage properties size).1 = .error error.no_device_memory
          ∧ ∀ a b, buffer_call.vkAllocateMemory a b ∉ (buffer.create drv d usage properties size).2)
      ∧ ((∃ i, compatible_memory_type drv.vkGetBufferMemoryRequirements.memoryTypeBits properties
            d.physical_device_.memory_properties i) →
          ∃ j, find_memory_type drv.vkGetBufferMemoryRequirements.memoryTypeBits properties
                d.physical_device_.memory_properties = some j
            ∧ compatible_memory_type drv.vkGetBufferMemoryRequirements.memoryTypeBits properties
                d.physical_device_.memory_properties j
            ∧ buffer_call.vkAllocateMemory drv.vkGetBufferMemoryRequirements.size j
                ∈ (buffer.create drv d usage properties size).2
            ∧ ∀ a b, buffer_call.vkAllocateMemory a b
                ∈ (buffer.create drv d usage properties size).2 → b = j) := by
  obtain ⟨hsome, hnone⟩ := find_memory_type_spec
    drv.vkGetBufferMemoryRequirements.memoryTypeBits properties
    d.physical_device_.memory_properties
  constructor
  · intro hno
    have hf := hnone.mpr hno
    unfold buffer.create
    simp only [hcreate, ne_eq, not_true_eq_false, if_false, hf]
    refine ⟨trivial, fun a b hmem => ?_⟩
    unfold deleter at hmem
    split_ifs at hmem <;> simp at hmem
  · rintro ⟨i, hi⟩
    rcases hf : find_memory_type drv.vkGetBufferMemoryRequirements.memoryTypeBits properties
      d.physical_device_.memory_properties with _ | j
    · exact absurd hi (hnone.mp hf i)
    · refine ⟨j, rfl, (hsome j hf).1, ?_, ?_⟩
      · unfold buffer.create
        simp only [hcreate, ne_eq, not_true_eq_false, if_false, hf]
        split_ifs <;> simp
      · intro a b hmem
        unfold buffer.create deleter at hmem
        simp only [hcreate, ne_eq, not_true_eq_false, if_false, hf] at hmem
        split_ifs at hmem <;> simp at hmem <;> exact hmem.2

/-- C17 at a device whose second memory type is host-visible and coherent. -/
theorem buffer_create_memory_type_witness :
    (buffer.create plain_buffer gpu_with_memory 1 8 60).1 = .error error.no_device_memory
      ∧ (buffer.create plain_buffer gpu_with_memory 1 6 60).2
          = [.vkCreateBuffer 60 1, .vkGetBufferMemoryRequirements 40, .vkAllocateMemory 60 1,
             .vkBindBufferMemory 40 41] :=
  ⟨((buffer_create_memory_type plain_buffer gpu_with_memory 1 8 60 rfl).1
      (by intro i h; obtain ⟨h1, h2, h3⟩ := h
          have : i = 0 ∨ i = 1 := by
            have : i < 2 := h1
            omega
          rcases this with rfl | rfl <;> revert h3 <;> decide)).1,
   by decide⟩

/-! ## Abandoned iterations and the recreation step -/

/-- The calls that the recovery step adds come after the chain. -/
theorem recreate_swapchain_after_chain (drv : frame_driver) (e : error) (w : application)
    (base : List call) (hw : w.trace = base) :
    ∃ rest, (recreate_swapchain drv e w).2.trace = base ++ rest
      ∧ ∀ c ∈ rest, c.after_chain = true := by
  subst hw
  unfold recreate_swapchain
  by_cases he : e = error.out_of_date
  · exact ⟨[], by simp [he], by simp⟩
  · by_cases hidle : drv.vkDeviceWaitIdle = VK_SUCCESS
    · rcases hc : swapchain.create drv.recreate w.device_ w.surface with err | created
      · refine ⟨[.vkDeviceWaitIdle, .vkCreateSwapchainKHR
          (swapchain_create_info drv.recreate.support w.surface
            drv.recreate.width drv.recreate.height)], ?_, by simp [call.after_chain]⟩
        simp [he, and_then, device.wait, hidle, application.emit, hc]
      · refine ⟨[.vkDeviceWaitIdle, .vkCreateSwapchainKHR
          (swapchain_create_info drv.recreate.support w.surface
            drv.recreate.width drv.recreate.height)], ?_, by simp [call.after_chain]⟩
        simp [he, and_then, device.wait, hidle, application.emit, hc]
    · refine ⟨[.vkDeviceWaitIdle], ?_, by simp [call.after_chain]⟩
      simp [he, and_then, device.wait, hidle, application.emit]

/-- The chain makes the first `calls_reached` calls of a full frame, then only
calls of the recovery step. -/
theorem frame_chain_calls (drv : frame_driver) (app : application) :
    ∃ rest, (frame_chain drv app).2.trace
        = app.trace ++ (frame_calls app drv.vkAcquireNextImageKHR.2).take (calls_reached drv)
            ++ rest
      ∧ ∀ c ∈ rest, c.after_chain = true := by
  by_cases h0 : drv.vkWaitForFences = VK_SUCCESS
  swap
  · simp only [frame_chain, and_then, or_else, device.wait_all, h0, calls_reached, frame_calls,
      ne_eq, not_false_eq_true, if_true, List.take]
    exact recreate_swapchain_after_chain _ _ _ _ (by simp [application.emit])
  by_cases h1 : drv.vkAcquireNextImageKHR.1 = VK_SUCCESS
  swap
  · simp only [frame_chain, and_then, or_else, device.wait_all, acquire_next_image,
      swapchain.acquire_next_image, h0, h1, calls_reached, frame_calls,
      ne_eq, not_false_eq_true, not_true_eq_false, if_true, if_false, List.take]
    exact recreate_swapchain_after_chain _ _ _ _ (by simp [application.emit])
  by_cases h2 : drv.vkResetFences = VK_SUCCESS
  swap
  · simp only [frame_chain, and_then, or_else, device.wait_all, acquire_next_image,
      swapchain.acquire_next_image, reset_fences, device.reset, h0, h1, h2, calls_reached,
      frame_calls, ne_eq, not_false_eq_true, not_true_eq_false, if_true, if_false, List.take]
    exact recreate_swapchain_after_chain _ _ _ _ (by simp [application.emit])
  by_cases h3 : drv.vkResetCommandBuffer = VK_SUCCESS
  swap
  · simp only [frame_chain, and_then, or_else, device.wait_all, acquire_next_image,
      swapchain.acquire_next_image, reset_fences, device.reset, reset_command_buffer,
      command_buffer.reset, h0, h1, h2, h3, calls_reached,
      frame_calls, ne_eq, not_false_eq_true, not_true_eq_false, if_true, if_false, List.take]
    exact recreate_swapchain_after_chain _ _ _ _ (by simp [application.emit])
  by_cases h4 : drv.vkBeginCommandBuffer = VK_SUCCESS
  swap
  · simp only [frame_chain, and_then, or_else, device.wait_all, acquire_next_image,
      swapchain.acquire_next_image, reset_fences, device.reset, reset_command_buffer,
      command_buffer.reset, record_command, command_buffer.record, h0, h1, h2, h3, h4,
      calls_reached,
      frame_calls, ne_eq, not_false_eq_true, not_true_eq_false, if_true, if_false, List.take]
    exact recreate_swapchain_after_chain _ _ _ _ (by simp [application.emit])
  by_cases h5 : drv.vkEndCommandBuffer = VK_SUCCESS
  swap
  · simp only [frame_chain, and_then, or_else, device.wait_all, acquire_next_image,
      swapchain.acquire_next_image, reset_fences, device.reset, reset_command_buffer,
      command_buffer.reset, record_command, command_buffer.record, draw, h0, h1, h2, h3, h4, h5,
      calls_reached,
      frame_calls, ne_eq, not_false_eq_true, not_true_eq_false, if_true, if_false, List.take]
    exact recreate_swapchain_after_chain _ _ _ _ (by simp [application.emit])
  by_cases h6 : drv.vkQueueSubmit = VK_SUCCESS
  swap
  · simp only [frame_chain, and_then, or_else, device.wait_all, acquire_next_image,
      swapchain.acquire_next_image, reset_fences, device.reset, reset_command_buffer,
      command_buffer.reset, record_command, command_buffer.record, draw, submit_command,
      device.submit, h0, h1, h2, h3, h4, h5, h6, calls_reached,
      frame_calls, ne_eq, not_false_eq_true, not_true_eq_false, if_true, if_false, List.take]
    exact recreate_swapchain_after_chain _ _ _ _ (by simp [application.emit])
  have hreached : calls_reached drv = 15 := by simp [calls_reached, h0, h1, h2, h3, h4, h5, h6]
  have htake : (frame_calls app drv.vkAcquireNextImageKHR.2).take 15
      = frame_calls app drv.vkAcquireNextImageKHR.2 := by simp [frame_calls]
  rw [hreached, htake]
  by_cases h7 : drv.vkQueuePresentKHR = VK_SUCCESS
  · rw [frame_chain_success drv app ⟨h0, h1, h2, h3, h4, h5, h6, h7⟩]
    exact ⟨[], by simp, by simp⟩
  · rw [frame_chain_present_failed drv app ⟨h0, h1, h2, h3, h4, h5, h6⟩ h7]
    exact recreate_swapchain_after_chain _ _ _ _ rfl

/-- The step of the call at a given position of a full frame. -/
theorem frame_calls_step (app : application) (image_index : Nat) (i : Nat) (c : call)
    (h : (frame_calls app image_index).get? i = some c) :
    c.step = some (if i < 4 then i else if i < 13 then 4 else if i < 14 then 5 else 6) := by
  have hi : i < 15 := by
    by_contra hge
    have : (frame_calls app image_index).get? i = none := by
      apply List.get?_eq_none.mpr
      simp only [frame_calls, List.length_cons, List.length_nil]
      omega
    rw [this] at h
    cases h
  interval_cases i <;> simp [frame_calls] at h <;> subst h <;> rfl

/-- Every step before the one of a call that was reached has succeeded. -/
theorem calls_reached_ok (drv : frame_driver) (i : Nat) (hi : i < calls_reached drv)
    (m : Nat) (hm : m < (if i < 4 then i else if i < 13 then 4 else if i < 14 then 5 else 6)) :
    drv.step_ok m := by
  unfold calls_reached at hi
  split_ifs at hi hm <;>
    first
    | omega
    | (have hm6 : m < 6 := by omega
       interval_cases m <;> simp_all [frame_driver.step_ok] <;> omega)

/-- C15: the calls of an iteration split into the calls of the chain steps and
the calls after the chain (recovery, `glfwPollEvents`).  A call of a step is
made only if every earlier step of wait, acquire, reset fence, reset command
buffer, record, submit, present succeeded; so when the fence wait or the
acquisition fails, no call resets the fence, resets or records the command
buffer, submits or presents. -/
theorem failed_step_abandons_iteration (drv : frame_driver) (app : application) :
    ∃ calls, (iteration drv app).2.trace = app.trace ++ calls
      ∧ (∀ c ∈ calls, ∀ n, c.step = some n → ∀ m, m < n → drv.step_ok m)
      ∧ (drv.vkWaitForFences ≠ VK_SUCCESS ∨ drv.vkAcquireNextImageKHR.1 ≠ VK_SUCCESS →
          ∀ c ∈ calls, ∀ n, c.step = some n → n ≤ 1) := by
  obtain ⟨rest, hrest, hafter⟩ := frame_chain_calls drv app
  obtain ⟨tail, htail, hpoll⟩ := iteration_trace drv app
  have hsteps : ∀ c ∈ (frame_calls app drv.vkAcquireNextImageKHR.2).take (calls_reached drv)
      ++ rest ++ tail, ∀ n, c.step = some n → ∀ m, m < n → drv.step_ok m := by
    intro c hc n hn m hm
    rcases List.mem_append.mp hc with hc | hc
    · rcases List.mem_append.mp hc with hc | hc
      · obtain ⟨i, hi, hget⟩ := List.mem_take_iff_getElem.mp hc
        have hlt : i < calls_reached drv := (Nat.lt_min.mp hi).1
        have hstep := frame_calls_step app drv.vkAcquireNextImageKHR.2 i c
          (by rw [List.get?_eq_getElem?, List.getElem?_eq_getElem (Nat.lt_min.mp hi).2, hget])
        rw [hstep] at hn
        simp only [Option.some.injEq] at hn
        subst hn
        exact calls_reached_ok drv i hlt m hm
      · have := hafter c hc
        cases c <;> simp [call.after_chain, call.step] at this hn
    · rw [hpoll c hc] at hn
      simp [call.step] at hn
  refine ⟨(frame_calls app drv.vkAcquireNextImageKHR.2).take (calls_reached drv) ++ rest ++ tail,
    ?_, hsteps, ?_⟩
  · rw [htail, hrest]; simp
  · intro hfail c hc n hn
    by_contra hgt
    have h0 : drv.step_ok 0 := hsteps c hc n hn 0 (by omega)
    have h1 : drv.step_ok 1 := hsteps c hc n hn 1 (by omega)
    rcases hfail with hfail | hfail
    · exact hfail h0
    · exact hfail h1

/-- C16: the recreation step leaves the owned swapchain as it was unless the
device-idle wait and then `swapchain::create`, called for the device and the
surface of the application, both succeeded, in which case the owned swapchain
is the created one.  When the idle wait fails its error is returned and
`vkCreateSwapchainKHR` is not called; when the creation fails its error is
returned; the step is not entered at all for `out_of_date`. -/
theorem recreate_swapchain_replaces_after_success (drv : frame_driver) (e : error)
    (app : application) :
    ((recreate_swapchain drv e app).2.swapchain_ ≠ app.swapchain_ →
        drv.vkDeviceWaitIdle = VK_SUCCESS
          ∧ swapchain.create drv.recreate app.device_ app.surface
              = .ok (recreate_swapchain drv e app).2.swapchain_
          ∧ (recreate_swapchain drv e app).1 = .ok ())
      ∧ (e ≠ error.out_of_date → drv.vkDeviceWaitIdle ≠ VK_SUCCESS →
          recreate_swapchain drv e app
            = (.error ⟨drv.vkDeviceWaitIdle⟩, app.emit .vkDeviceWaitIdle))
      ∧ (e ≠ error.out_of_date → drv.vkDeviceWaitIdle = VK_SUCCESS →
          ∀ failure, swapchain.create drv.recreate app.device_ app.surface = .error failure →
            (recreate_swapchain drv e app).1 = .error failure
              ∧ (recreate_swapchain drv e app).2.swapchain_ = app.swapchain_)
      ∧ (e ≠ error.out_of_date → drv.vkDeviceWaitIdle = VK_SUCCESS →
          ∀ created, swapchain.create drv.recreate app.device_ app.surface = .ok created →
            (recreate_swapchain drv e app).1 = .ok ()
              ∧ (recreate_swapchain drv e app).2.swapchain_ = created
              ∧ (recreate_swapchain drv e app).2.trace
                  = app.trace ++ [.vkDeviceWaitIdle,
                      .vkCreateSwapchainKHR (swapchain_create_info drv.recreate.support
                        app.surface drv.recreate.width drv.recreate.height)])
      ∧ (e = error.out_of_date → recreate_swapchain drv e app = (.error e, app)) := by
  have hfail : e ≠ error.out_of_date → drv.vkDeviceWaitIdle ≠ VK_SUCCESS →
      recreate_swapchain drv e app
        = (.error ⟨drv.vkDeviceWaitIdle⟩, app.emit .vkDeviceWaitIdle) := by
    intro he hidle
    simp [recreate_swapchain, he, and_then, device.wait, hidle]
  have hcreate_fail : e ≠ error.out_of_date → drv.vkDeviceWaitIdle = VK_SUCCESS →
      ∀ failure, swapchain.create drv.recreate app.device_ app.surface = .error failure →
        (recreate_swapchain drv e app).1 = .error failure
          ∧ (recreate_swapchain drv e app).2.swapchain_ = app.swapchain_ := by
    intro he hidle failure hc
    simp [recreate_swapchain, he, and_then, device.wait, hidle, application.emit, hc]
  have hcreate_ok : e ≠ error.out_of_date → drv.vkDeviceWaitIdle = VK_SUCCESS →
      ∀ created, swapchain.create drv.recreate app.device_ app.surface = .ok created →
        (recreate_swapchain drv e app).1 = .ok ()
          ∧ (recreate_swapchain drv e app).2.swapchain_ = created
          ∧ (recreate_swapchain drv e app).2.trace
              = app.trace ++ [.vkDeviceWaitIdle,
                  .vkCreateSwapchainKHR (swapchain_create_info drv.recreate.support
                    app.surface drv.recreate.width drv.recreate.height)] := by
    intro he hidle created hc
    simp [recreate_swapchain, he, and_then, device.wait, hidle, application.emit, hc]
  have hood : e = error.out_of_date → recreate_swapchain drv e app = (.error e, app) := by
    intro he
    simp [recreate_swapchain, he]
  refine ⟨?_, hfail, hcreate_fail, hcreate_ok, hood⟩
  intro hchanged
  by_cases he : e = error.out_of_date
  · rw [hood he] at hchanged; exact absurd rfl hchanged
  by_cases hidle : drv.vkDeviceWaitIdle = VK_SUCCESS
  swap
  · rw [hfail he hidle] at hchanged; exact absurd rfl hchanged
  rcases hc : swapchain.create drv.recreate app.device_ app.surface with failure | created
  · exact absurd (hcreate_fail he hidle failure hc).2 hchanged
  · obtain ⟨hok, hswap, -⟩ := hcreate_ok he hidle created hc
    exact ⟨hidle, by rw [hswap], hok⟩

/-! ## Required extensions -/

/-- On a sorted range and a strictly sorted range, `std::ranges::includes` holds
exactly when every name of the second occurs in the first. -/
theorem includes_iff_subset :
    ∀ (xs ys : List String), sorted_names xs → strictly_sorted_names ys →
      (includes xs ys = true ↔ ∀ y ∈ ys, y ∈ xs) := by
  intro xs
  induction xs with
  | nil =>
    intro ys _ _
    cases ys with
    | nil => simp [includes]
    | cons y ys =>
      unfold includes
      constructor
      · intro h; cases h
      · intro h; exact absurd (h y (List.mem_cons_self _ _)) (List.not_mem_nil _)
  | cons x xs ih =>
    intro ys hx hy
    cases ys with
    | nil => simp [includes]
    | cons y ys =>
      have hxs : sorted_names xs := (List.pairwise_cons.mp hx).2
      have hxle : ∀ a ∈ xs, ¬ a.toList < x.toList := (List.pairwise_cons.mp hx).1
      have hys : strictly_sorted_names ys := (List.pairwise_cons.mp hy).2
      have hylt : ∀ b ∈ ys, y.toList < b.toList := (List.pairwise_cons.mp hy).1
      unfold includes
      by_cases h1 : y.toList < x.toList
      · rw [if_pos h1]
        simp only [Bool.false_eq_true, false_iff]
        intro hall
        rcases List.mem_cons.mp (hall y (List.mem_cons_self _ _)) with heq | hmem
        · rw [heq] at h1; exact lt_irrefl _ h1
        · exact hxle y hmem h1
      · rw [if_neg h1]
        by_cases h2 : x.toList < y.toList
        · rw [if_pos h2, ih (y :: ys) hxs hy]
          constructor
          · intro hall b hb
            exact List.mem_cons_of_mem _ (hall b hb)
          · intro hall b hb
            rcases List.mem_cons.mp (hall b hb) with heq | hmem
            · exfalso
              rcases List.mem_cons.mp hb with hby | hbys
              · rw [← heq, hby] at h2; exact lt_irrefl _ h2
              · have := hylt b hbys
                rw [heq] at this
                exact lt_asymm this h2
            · exact hmem
        · rw [if_neg h2, ih ys hxs hys]
          have hxy : x = y := by
            apply String.ext
            rcases lt_trichotomy x.toList y.toList with h | h | h
            · exact absurd h h2
            · exact h
            · exact absurd h h1
          subst hxy
          constructor
          · intro hall b hb
            rcases List.mem_cons.mp hb with heq | hbys
            · rw [heq]; exact List.mem_cons_self _ _
            · exact List.mem_cons_of_mem _ (hall b hbys)
          · intro hall b hb
            rcases List.mem_cons.mp (hall b (List.mem_cons_of_mem _ hb)) with heq | hmem
            · exfalso
              have := hylt b hb
              rw [heq] at this
              exact lt_irrefl _ this
            · exact hmem

/-- C20, evaluated: the view that `extension_to_string` returns is never alive.
On a device whose list is sorted by name and holds the required name, with a
sorted required list, `supports_extensions` answers true when the dead storage
still holds the name and false when it has been overwritten, so the answer is
not the subset check.  Through the same views the sort of `retrieve_devices`
finds `VK_KHR_swapchain` less than `VK_KHR_maintenance1` when the storage has
been overwritten.  The assertion orders addresses: it fails on a list sorted by
name and holds on a list that is not. -/
theorem supports_extensions_reads_dead_storage :
    (∀ x, (extension_to_string x).alive = false)
      ∧ sorted_names
          ((gpu_with_extensions ["VK_KHR_maintenance1", "VK_KHR_swapchain"]).extensions.map
            (fun x => x.extensionName))
      ∧ sorted_names ["VK_KHR_swapchain"]
      ∧ (∀ name ∈ ["VK_KHR_swapchain"],
          name ∈ (gpu_with_extensions ["VK_KHR_maintenance1", "VK_KHR_swapchain"]).extensions.map
            (fun x => x.extensionName))
      ∧ supports_extensions intact
          (gpu_with_extensions ["VK_KHR_maintenance1", "VK_KHR_swapchain"])
          ["VK_KHR_swapchain"] = true
      ∧ supports_extensions overwritten
          (gpu_with_extensions ["VK_KHR_maintenance1", "VK_KHR_swapchain"])
          ["VK_KHR_swapchain"] = false
      ∧ retrieve_devices.less intact ⟨"VK_KHR_swapchain", 1⟩ ⟨"VK_KHR_maintenance1", 1⟩ = false
      ∧ retrieve_devices.less overwritten ⟨"VK_KHR_swapchain", 1⟩ ⟨"VK_KHR_maintenance1", 1⟩
          = true
      ∧ sorted_names ["VK_KHR_maintenance1", "VK_KHR_swapchain"]
      ∧ supports_extensions_assertion
          [⟨200, "VK_KHR_maintenance1"⟩, ⟨100, "VK_KHR_swapchain"⟩] = false
      ∧ ¬ sorted_names ["VK_KHR_swapchain", "VK_KHR_maintenance1"]
      ∧ supports_extensions_assertion
          [⟨100, "VK_KHR_swapchain"⟩, ⟨200, "VK_KHR_maintenance1"⟩] = true := by
  refine ⟨fun _ => rfl, by unfold sorted_names; decide, by unfold sorted_names; decide,
    by decide, by decide, by decide, by decide, by decide, by unfold sorted_names; decide,
    by decide, by unfold sorted_names; decide, by decide⟩

/-! ## Framebuffers, recording and slot resources -/

/-- The initialiser of `framebuffer_` binds the i-th framebuffer to the i-th
image view it was given. -/
theorem make_framebuffers_attachments (vkCreateFramebuffer : Nat → VkResult × Nat)
    (chain : swapchain) :
    ∀ (views : List Nat) (result : List framebuffer),
      make_framebuffers vkCreateFramebuffer chain views = .ok result →
      result.map (fun f => f.attachment) = views := by
  intro views
  induction views with
  | nil =>
    intro result h
    simp only [make_framebuffers, Except.ok.injEq] at h
    subst h
    rfl
  | cons view views ih =>
    intro result h
    unfold make_framebuffers at h
    unfold framebuffer.create at h
    split_ifs at h with hc
    rcases hrest : make_framebuffers vkCreateFramebuffer chain views with t | rest
    · rw [hrest] at h; simp at h
    · rw [hrest] at h
      simp only [Except.ok.injEq] at h
      subst h
      simp [ih rest hrest]

/-- C21, evaluated: the framebuffers built at construction match the image
views 11, 12, 13 of the first swapchain; after an iteration that recreates the
swapchain (suboptimal presentation, rebuild succeeds) the owned swapchain has
the image views 14, 15, 16 while `framebuffer_` still holds the three
framebuffers bound to 11, 12, 13: the invariant no longer holds. -/
theorem framebuffers_stale_after_recreation :
    make_framebuffers sample_framebuffers sample_application.swapchain_
        sample_application.swapchain_.image_views_ = .ok sample_application.framebuffer_
      ∧ framebuffers_match sample_application
      ∧ (iteration suboptimal_present sample_application).1 = .ok ()
      ∧ (iteration suboptimal_present sample_application).2.swapchain_.image_views_
          = [14, 15, 16]
      ∧ (iteration suboptimal_present sample_application).2.framebuffer_.map
          (fun f => f.attachment) = [11, 12, 13]
      ∧ ¬ framebuffers_match (iteration suboptimal_present sample_application).2 := by
  refine ⟨rfl, by unfold framebuffers_match; decide, rfl, by decide, by decide,
    by unfold framebuffers_match; decide⟩

/-- C22: when `vkBeginCommandBuffer`, the draw callback and `vkEndCommandBuffer`
succeed and `image_index` is in range, `record` returns success and adds to the
trace exactly: begin command buffer, begin render pass on
`framebuffers[image_index]` with the swapchain extent as render area, bind the
pipeline, set the viewport at (0, 0) with the width and height of the extent,
set the scissor to the extent, the calls of one invocation of the callback, end
render pass, end command buffer, all on the command buffer of the slot. -/
theorem record_sequence (begin_result end_result : VkResult) (frame image_index : Nat)
    (custom_op : Nat → step Unit) (ops : List call) (app : application) (target : framebuffer)
    (hbegin : begin_result = VK_SUCCESS) (hend : end_result = VK_SUCCESS)
    (hop : ∀ w, custom_op frame w = (.ok (), { w with trace := w.trace ++ ops }))
    (hindex : app.framebuffer_.get? image_index = some target) :
    command_buffer.record begin_result end_result frame image_index custom_op app
      = (.ok (),
          { app with trace := app.trace ++
              [.vkBeginCommandBuffer frame,
               .vkCmdBeginRenderPass frame app.render_pass_ (some target) app.swapchain_.extent_,
               .vkCmdBindPipeline frame app.pipeline_,
               .vkCmdSetViewport frame 0 0 app.swapchain_.extent_.width
                  app.swapchain_.extent_.height,
               .vkCmdSetScissor frame app.swapchain_.extent_]
              ++ ops ++ [.vkCmdEndRenderPass frame, .vkEndCommandBuffer frame] }) := by
  unfold command_buffer.record
  simp only [hbegin, hend, ne_eq, not_true_eq_false, if_false, application.emit, hop, hindex]
  simp

/-- C22 with the callback of the application, slot 1 and image 2. -/
theorem record_sequence_witness :
    command_buffer.record VK_SUCCESS VK_SUCCESS 1 2 draw sample_application
      = (.ok (),
          { sample_application with trace := sample_application.trace ++
              [.vkBeginCommandBuffer 1,
               .vkCmdBeginRenderPass 1 sample_application.render_pass_
                  (some ⟨23, 13, 800, 600⟩) sample_application.swapchain_.extent_,
               .vkCmdBindPipeline 1 sample_application.pipeline_,
               .vkCmdSetViewport 1 0 0 sample_application.swapchain_.extent_.width
                  sample_application.swapchain_.extent_.height,
               .vkCmdSetScissor 1 sample_application.swapchain_.extent_]
              ++ [.vkCmdBindVertexBuffers 1, .vkCmdDraw 1 3]
              ++ [.vkCmdEndRenderPass 1, .vkEndCommandBuffer 1] }) :=
  record_sequence VK_SUCCESS VK_SUCCESS 1 2 draw [.vkCmdBindVertexBuffers 1, .vkCmdDraw 1 3]
    sample_application ⟨23, 13, 800, 600⟩ rfl rfl
    (fun w => by simp [draw, application.emit]) rfl

/-- Every call of a full frame names only the slot `frame`. -/
theorem frame_calls_slots (app : application) (image_index : Nat) :
    ∀ c ∈ frame_calls app image_index, ∀ s ∈ c.slots, s = app.frame := by
  intro c hc s hs
  simp only [frame_calls, List.mem_cons, List.mem_singleton, List.not_mem_nil, or_false] at hc
  rcases hc with h | h | h | h | h | h | h | h | h | h | h | h | h | h | h <;>
    (subst h; simp [call.slots] at hs; try exact hs)

/-- C23: the calls that an iteration adds to the trace name no fence, semaphore
or command buffer other than those of index `frame`; a submission waits at the
colour-attachment-output stage; a presentation uses the owned swapchain and the
image index that the acquisition of this iteration returned; and when every
step succeeds the calls are those of a full frame on slot `frame`, followed by
`glfwPollEvents`. -/
theorem iteration_uses_current_slot (drv : frame_driver) (app : application) :
    ∃ calls, (iteration drv app).2.trace = app.trace ++ calls
      ∧ (∀ c ∈ calls, ∀ s ∈ c.slots, s = app.frame)
      ∧ (∀ buffer wait stage signal fence,
          call.vkQueueSubmit buffer wait stage signal fence ∈ calls →
            stage = VK_PIPELINE_STAGE_COLOR_ATTACHMENT_OUTPUT_BIT)
      ∧ (∀ chain image_index wait, call.vkQueuePresentKHR chain image_index wait ∈ calls →
          chain = app.swapchain_.swapchain_ ∧ image_index = drv.vkAcquireNextImageKHR.2)
      ∧ (drv.succeeds →
          calls = frame_calls app drv.vkAcquireNextImageKHR.2 ++ [.glfwPollEvents]) := by
  obtain ⟨rest, hrest, hafter⟩ := frame_chain_calls drv app
  obtain ⟨tail, htail, hpoll⟩ := iteration_trace drv app
  have hmem : ∀ c ∈ (frame_calls app drv.vkAcquireNextImageKHR.2).take (calls_reached drv)
      ++ rest ++ tail,
      c ∈ frame_calls app drv.vkAcquireNextImageKHR.2 ∨ c.after_chain = true := by
    intro c hc
    rcases List.mem_append.mp hc with hc | hc
    · rcases List.mem_append.mp hc with hc | hc
      · exact Or.inl (List.mem_of_mem_take hc)
      · exact Or.inr (hafter c hc)
    · right; rw [hpoll c hc]; rfl
  refine ⟨(frame_calls app drv.vkAcquireNextImageKHR.2).take (calls_reached drv) ++ rest ++ tail,
    by rw [htail, hrest]; simp, ?_, ?_, ?_, ?_⟩
  · intro c hc s hs
    rcases hmem c hc with h | h
    · exact frame_calls_slots app _ c h s hs
    · cases c <;> simp [call.after_chain, call.slots] at h hs
  · intro buffer wait stage signal fence hc
    rcases hmem _ hc with h | h
    · simp [frame_calls] at h
      exact h.2.2.1
    · simp [call.after_chain] at h
  · intro chain image_index wait hc
    rcases hmem _ hc with h | h
    · simp [frame_calls] at h
      exact ⟨h.1, h.2.1⟩
    · simp [call.after_chain] at h
  · intro hs
    have h : (iteration drv app).2.trace
        = app.trace ++ (frame_calls app drv.vkAcquireNextImageKHR.2 ++ [.glfwPollEvents]) := by
      unfold iteration
      rw [frame_chain_success drv app hs]
      simp [transform_error_panic, application.emit]
    rw [htail, hrest] at h
    simp only [List.append_assoc] at h
    simpa only [List.append_assoc] using List.append_cancel_left h

/-! ## Error kinds -/

/-- C25, evaluated: on `VK_TIMEOUT` the member `wait_all` returns `timeout`, but
`wait_one` and `acquire_next_image` return the value 2, which is the error kind
`file_not_found` and not `timeout`; on `VK_NOT_READY` the acquisition returns
`no_suitable_devices`.  With the enumeration of `error.hpp` the members of
`device.cpp` return the value 2, which is both `timeout` and `file_not_found`. -/
theorem timeout_reported_as_file_not_found :
    (device.wait_all VK_TIMEOUT 0 sample_application).1 = .error error.timeout
      ∧ (device.wait_one VK_TIMEOUT 0 sample_application).1 = .error error.file_not_found
      ∧ (swapchain.acquire_next_image (VK_TIMEOUT, 0) 0 sample_application).1
          = .error error.file_not_found
      ∧ (swapchain.acquire_next_image (VK_NOT_READY, 0) 0 sample_application).1
          = .error error.no_suitable_devices
      ∧ error.file_not_found ≠ error.timeout
      ∧ refactored_device.wait VK_TIMEOUT = .error ⟨2⟩
      ∧ error_hpp_value "timeout" = some 2
      ∧ error_hpp_value "file_not_found" = some 2 := by
  refine ⟨rfl, rfl, rfl, rfl, by decide, rfl, by decide, by decide⟩

/-- C26, evaluated: in `error.hpp` the enumerators `not_ready` and
`no_suitable_devices` both have the value 1, and `timeout` and `file_not_found`
both have the value 2. -/
theorem error_kinds_share_values :
    ("not_ready", 1) ∈ error_hpp ∧ ("no_suitable_devices", 1) ∈ error_hpp
      ∧ ("timeout", 2) ∈ error_hpp ∧ ("file_not_found", 2) ∈ error_hpp
      ∧ error_hpp_value "no_suitable_devices" = error_hpp_value "not_ready"
      ∧ error_hpp_value "file_not_found" = error_hpp_value "timeout"
      ∧ ¬ ∀ first ∈ error_hpp, ∀ second ∈ error_hpp, first.2 = second.2 → first.1 = second.1 := by
  refine ⟨by decide, by decide, by decide, by decide, by decide, by decide, ?_⟩
  intro h
  exact absurd (h ("not_ready", 1) (by decide) ("no_suitable_devices", 1) (by decide) rfl)
    (by decide)

/-! ## Vertex attribute formats -/

/-- C30, evaluated: `get_format` maps `glm::dvec2` to `f32_vec2`, two 32-bit
floats of 8 bytes for a type of two 64-bit floats of 16 bytes, and `glm::dvec3`
to `f32_vec3`, 12 bytes for 24; every other listed type gets the format of its
own layout, and any other type gets `error`. -/
theorem get_format_halves_double_vectors :
    get_format .dvec2 = .f32_vec2
      ∧ (get_format .dvec2).layout ≠ attribute_type.layout .dvec2
      ∧ layout_bytes (get_format .dvec2).layout = 8
      ∧ layout_bytes (attribute_type.layout .dvec2) = 16
      ∧ get_format .dvec3 = .f32_vec3
      ∧ layout_bytes (get_format .dvec3).layout = 12
      ∧ layout_bytes (attribute_type.layout .dvec3) = 24
      ∧ (∀ t, t ≠ .dvec2 → t ≠ .dvec3 → (get_format t).layout = t.layout)
      ∧ get_format .other = .error := by
  refine ⟨rfl, by decide, by decide, by decide, rfl, by decide, by decide, ?_, rfl⟩
  intro t h2 h3
  cases t <;> first | rfl | exact absurd rfl h2 | exact absurd rfl h3

/-! ## Memory types, by bits -/

/-- The test `filter & (1 << i)` is non-zero exactly when bit `i` of the filter
is set. -/
theorem and_shift_ne_zero_iff (filter i : Nat) :
    filter &&& (1 <<< i) ≠ 0 ↔ filter.testBit i = true := by
  rw [Nat.one_shiftLeft]
  constructor
  · intro h
    by_contra hbit
    apply h
    apply Nat.eq_of_testBit_eq
    intro j
    rw [Nat.testBit_and, Nat.testBit_two_pow, Nat.zero_testBit]
    by_cases hij : i = j
    · subst hij
      simp [hbit]
    · simp [hij]
  · intro hbit h
    have h2 : (filter &&& 2 ^ i).testBit i = true := by
      rw [Nat.testBit_and, Nat.testBit_two_pow_self, hbit]
      rfl
    rw [h, Nat.zero_testBit] at h2
    cases h2

/-- The test `(flags & properties) == properties` holds exactly when every bit
of `properties` is set in `flags`. -/
theorem and_eq_right_iff (flags properties : Nat) :
    flags &&& properties = properties
      ↔ ∀ bit, properties.testBit bit = true → flags.testBit bit = true := by
  constructor
  · intro h bit hbit
    have h2 : (flags &&& properties).testBit bit = true := by rw [h]; exact hbit
    rw [Nat.testBit_and] at h2
    simp only [Bool.and_eq_true] at h2
    exact h2.1
  · intro h
    apply Nat.eq_of_testBit_eq
    intro bit
    rw [Nat.testBit_and]
    cases hp : properties.testBit bit
    · simp
    · simp [h bit hp]

/-- The condition of the loop of `find_memory_type`, in terms of bits. -/
theorem compatible_memory_type_iff (filter properties : Nat)
    (mp : VkPhysicalDeviceMemoryProperties) (i : Nat) :
    compatible_memory_type filter properties mp i
      ↔ (i < mp.memoryTypeCount ∧ filter.testBit i = true
          ∧ ∀ bit, properties.testBit bit = true →
              (mp.memoryTypes.getD i ⟨0, 0⟩).propertyFlags.testBit bit = true) := by
  unfold compatible_memory_type
  rw [and_shift_ne_zero_iff, and_eq_right_iff]

/-- C24: for a memory-properties record with `memoryTypeCount ≤ 32`,
`find_memory_type` returns the index `i` if and only if `i` is the least index
below `memoryTypeCount` whose bit is set in the filter and whose
`propertyFlags` contain every requested flag, and it returns no value if and
only if there is no such index. -/
theorem find_memory_type_least (filter properties : Nat)
    (mp : VkPhysicalDeviceMemoryProperties) (hcount : mp.memoryTypeCount ≤ 32) :
    (∀ i, find_memory_type filter properties mp = some i
        ↔ least_compatible filter properties mp i)
      ∧ (find_memory_type filter properties mp = none
        ↔ ¬ ∃ i, i < mp.memoryTypeCount ∧ i < 32 ∧ filter.testBit i = true
            ∧ ∀ bit, properties.testBit bit = true →
                (mp.memoryTypes.getD i ⟨0, 0⟩).propertyFlags.testBit bit = true) := by
  obtain ⟨hsome, hnone⟩ := find_memory_type_spec filter properties mp
  have hleast : ∀ j, find_memory_type filter properties mp = some j →
      least_compatible filter properties mp j := by
    intro j hj
    obtain ⟨hc, hmin⟩ := hsome j hj
    exact ⟨(compatible_memory_type_iff filter properties mp j).mp hc,
      fun k hk hck => hmin k hk ((compatible_memory_type_iff filter properties mp k).mpr hck)⟩
  refine ⟨fun i => ⟨hleast i, fun hi => ?_⟩, ?_⟩
  · rcases hf : find_memory_type filter properties mp with _ | j
    · exact absurd ((compatible_memory_type_iff filter properties mp i).mpr hi.1)
        (hnone.mp hf i)
    · have hj := hleast j hf
      rcases Nat.lt_trichotomy i j with h | h | h
      · exact absurd hi.1 (hj.2 i h)
      · rw [h]
      · exact absurd hj.1 (hi.2 j h)
  · rw [hnone]
    constructor
    · rintro h ⟨i, hi, -, hrest⟩
      exact h i ((compatible_memory_type_iff filter properties mp i).mpr ⟨hi, hrest⟩)
    · intro h k hk
      have hk2 := (compatible_memory_type_iff filter properties mp k).mp hk
      exact h ⟨k, hk2.1, by omega, hk2.2⟩

/-- C24 on a device with two memory types: the first type whose bit is set in
the filter 3 and that has both flags of 6 is the one of index 1. -/
theorem find_memory_type_least_witness :
    (⟨2, [⟨1, 0⟩, ⟨6, 0⟩]⟩ : VkPhysicalDeviceMemoryProperties).memoryTypeCount ≤ 32
      ∧ find_memory_type 3 6 ⟨2, [⟨1, 0⟩, ⟨6, 0⟩]⟩ = some 1
      ∧ least_compatible 3 6 ⟨2, [⟨1, 0⟩, ⟨6, 0⟩]⟩ 1 :=
  ⟨by decide, by decide,
    ((find_memory_type_least 3 6 ⟨2, [⟨1, 0⟩, ⟨6, 0⟩]⟩ (by decide)).1 1).mp (by decide)⟩

/-! ## Versions -/

/-- The fields that `semver(v)` stores for a 32-bit `v`, by division. -/
theorem semver_decode_eq (v : Nat) (hv : v < 4294967296) :
    semver.decode v
      = ⟨((v / 4194304 : Nat) : Int), (((v / 4096) % 1024 : Nat) : Int),
          ((v % 4096 : Nat) : Int)⟩ := by
  have h1 : v >>> 22 = v / 4194304 := by rw [Nat.shiftRight_eq_div_pow]
  have h2 : v &&& (4294967295 >>> 10) = v % 4194304 := by
    have := Nat.and_pow_two_sub_one_eq_mod v 22
    simpa using this
  have h3 : v &&& (4294967295 >>> 20) = v % 4096 := by
    have := Nat.and_pow_two_sub_one_eq_mod v 12
    simpa using this
  have h4 : (v % 4194304) >>> 12 = (v / 4096) % 1024 := by
    rw [Nat.shiftRight_eq_div_pow]
    omega
  unfold semver.decode
  rw [h2, h3, h4, h1]
  have a1 : v / 4194304 % 65536 = v / 4194304 := by omega
  have a2 : v / 4096 % 1024 % 65536 = v / 4096 % 1024 := by omega
  have a3 : v % 4096 % 65536 = v % 4096 := by omega
  have b1 : v / 4194304 < 32768 := by omega
  have b2 : v / 4096 % 1024 < 32768 := by omega
  have b3 : v % 4096 < 32768 := by omega
  simp only [to_int16, a1, a2, a3, b1, b2, b3, if_true]

/-- The packed value of three fields below 128, as a sum. -/
theorem packed_eq_sum (major minor patch : Nat) (hminor : minor ≤ 127) (hpatch : patch ≤ 127) :
    (major <<< 22) ||| (minor <<< 12) ||| patch
      = major * 4194304 + minor * 4096 + patch := by
  have h1 : minor <<< 12 ||| patch = 2 ^ 12 * minor + patch := by
    rw [Nat.shiftLeft_eq, Nat.mul_comm]
    exact (Nat.mul_add_lt_is_or (by omega : patch < 2 ^ 12) minor).symm
  have h2 : 2 ^ 12 * minor + patch < 2 ^ 22 := by omega
  have h3 : major <<< 22 ||| (2 ^ 12 * minor + patch)
      = 2 ^ 22 * major + (2 ^ 12 * minor + patch) := by
    rw [Nat.shiftLeft_eq, Nat.mul_comm]
    exact (Nat.mul_add_lt_is_or h2 major).symm
  rw [Nat.or_assoc, h1, h3]
  omega

/-- C27: for a 32-bit packed version `v`, `semver(v)` has major `v >> 22`,
minor `(v >> 12) mod 1024` and patch `v mod 4096`, each between 0 and 32767;
and for major, minor and patch between 0 and 127, decoding
`(major << 22) | (minor << 12) | patch` gives `semver(major, minor, patch)`. -/
theorem semver_decode_fields (v : Nat) (hv : v < 4294967296) :
    semver.decode v
        = ⟨((v >>> 22 : Nat) : Int), (((v >>> 12) % 1024 : Nat) : Int),
            ((v % 4096 : Nat) : Int)⟩
      ∧ (0 ≤ (semver.decode v).major_ ∧ (semver.decode v).major_ ≤ 32767)
      ∧ (0 ≤ (semver.decode v).minor_ ∧ (semver.decode v).minor_ ≤ 32767)
      ∧ (0 ≤ (semver.decode v).patch_ ∧ (semver.decode v).patch_ ≤ 32767)
      ∧ ∀ major minor patch : Nat, major ≤ 127 → minor ≤ 127 → patch ≤ 127 →
          semver.decode ((major <<< 22) ||| (minor <<< 12) ||| patch)
            = semver.make major minor patch := by
  have h := semver_decode_eq v hv
  refine ⟨?_, ?_, ?_, ?_, ?_⟩
  · rw [h, Nat.shiftRight_eq_div_pow, Nat.shiftRight_eq_div_pow]
  · rw [h]
    constructor
    · exact Int.ofNat_nonneg _
    · show ((v / 4194304 : Nat) : Int) ≤ 32767
      omega
  · rw [h]
    constructor
    · exact Int.ofNat_nonneg _
    · show (((v / 4096) % 1024 : Nat) : Int) ≤ 32767
      omega
  · rw [h]
    constructor
    · exact Int.ofNat_nonneg _
    · show ((v % 4096 : Nat) : Int) ≤ 32767
      omega
  · intro major minor patch hmajor hminor hpatch
    rw [packed_eq_sum major minor patch hminor hpatch,
      semver_decode_eq _ (by omega)]
    have e1 : (major * 4194304 + minor * 4096 + patch) / 4194304 = major := by omega
    have e2 : (major * 4194304 + minor * 4096 + patch) / 4096 % 1024 = minor := by omega
    have e3 : (major * 4194304 + minor * 4096 + patch) % 4096 = patch := by omega
    rw [e1, e2, e3]
    rfl

/-- C27 on the packed version 1.2.3, which is 4202499. -/
theorem semver_decode_fields_witness :
    (4202499 : Nat) < 4294967296
      ∧ semver.decode 4202499 = ⟨1, 2, 3⟩
      ∧ semver.decode ((1 <<< 22) ||| (2 <<< 12) ||| 3) = semver.make 1 2 3 :=
  ⟨by decide, by decide,
    (semver_decode_fields 4202499 (by decide)).2.2.2.2 1 2 3 (by decide) (by decide)
      (by decide)⟩

/-- The three-way comparison of two versions, by cases. -/
theorem semver_compare_cases (x y : semver) :
    x.compare y
      = if x.major_ < y.major_ then .lt else if y.major_ < x.major_ then .gt
        else if x.minor_ < y.minor_ then .lt else if y.minor_ < x.minor_ then .gt
        else if x.patch_ < y.patch_ then .lt else if y.patch_ < x.patch_ then .gt
        else .eq := by
  have key : ∀ (a b : Int) (rest : Ordering),
      (Ord.compare a b).then rest
        = if a < b then .lt else if b < a then .gt else rest := by
    intro a b rest
    rcases lt_trichotomy a b with h | h | h
    · rw [compare_lt_iff_lt.mpr h, if_pos h]; rfl
    · subst h
      rw [compare_eq_iff_eq.mpr rfl]
      simp [Ordering.then]
    · rw [compare_gt_iff_gt.mpr h, if_neg (not_lt.mpr (le_of_lt h)), if_pos h]; rfl
  unfold semver.compare
  rw [key, key]
  have last : Ord.compare x.patch_ y.patch_
      = if x.patch_ < y.patch_ then .lt else if y.patch_ < x.patch_ then .gt else .eq := by
    rcases lt_trichotomy x.patch_ y.patch_ with h | h | h
    · rw [compare_lt_iff_lt.mpr h, if_pos h]
    · rw [h, compare_eq_iff_eq.mpr rfl]
      simp
    · rw [compare_gt_iff_gt.mpr h, if_neg (not_lt.mpr (le_of_lt h)), if_pos h]
  rw [last]

/-- C28: for 32-bit packed versions `a` and `b`, the three-way comparison of
`semver(a)` with `semver(b)` gives the result of comparing `a` with `b` as
unsigned integers, and `semver(a) == semver(b)` exactly when `a == b`. -/
theorem semver_decode_preserves_order (a b : Nat) (ha : a < 4294967296)
    (hb : b < 4294967296) :
    (semver.decode a).compare (semver.decode b) = Ord.compare a b
      ∧ ((semver.decode a).compare (semver.decode b) = .eq ↔ a = b)
      ∧ (semver.decode a = semver.decode b ↔ a = b) := by
  have hcmp : (semver.decode a).compare (semver.decode b) = Ord.compare a b := by
    rw [semver_compare_cases, semver_decode_eq a ha, semver_decode_eq b hb]
    simp only [Nat.cast_lt]
    rcases lt_trichotomy a b with h | h | h
    · rw [compare_lt_iff_lt.mpr h]
      split_ifs <;> first | rfl | omega
    · subst h
      rw [compare_eq_iff_eq.mpr rfl]
      simp
    · rw [compare_gt_iff_gt.mpr h]
      split_ifs <;> first | rfl | omega
  refine ⟨hcmp, ?_, ?_⟩
  · rw [hcmp]
    exact compare_eq_iff_eq
  · constructor
    · intro h
      rw [semver_decode_eq a ha, semver_decode_eq b hb] at h
      simp only [semver.mk.injEq, Nat.cast_inj] at h
      omega
    · intro h
      rw [h]

/-- C28 on two versions that differ in the minor field only. -/
theorem semver_decode_preserves_order_witness :
    (4202499 : Nat) < 4294967296 ∧ (4206592 : Nat) < 4294967296
      ∧ (semver.decode 4202499).compare (semver.decode 4206592) = Ord.compare 4202499 4206592
      ∧ Ord.compare 4202499 4206592 = Ordering.lt :=
  ⟨by decide, by decide,
    (semver_decode_preserves_order 4202499 4206592 (by decide) (by decide)).1, by decide⟩

/-- The comparison `x >= y` is the lexicographic order on the three fields. -/
theorem semver_ge_iff (x y : semver) : x.ge y = true ↔ semver.lex_ge x y := by
  unfold semver.ge semver.lex_ge
  rw [semver_compare_cases]
  have e1 : (Ordering.lt != Ordering.lt) = false := rfl
  have e2 : (Ordering.gt != Ordering.lt) = true := rfl
  have e3 : (Ordering.eq != Ordering.lt) = true := rfl
  split_ifs <;> simp only [e1, e2, e3, Bool.false_eq_true, false_iff, true_iff] <;> omega

/-- C29: `has_extension` returns false when no entry of the extension list of
the device has the name; when the list has an entry with the name, it returns
true exactly when the version is at least `semver(specVersion)` of the first
such entry, in the lexicographic order on (major, minor, patch). -/
theorem has_extension_first_entry (self : physical_device) (extension_name : String)
    (vulkan_version : semver) :
    ((∀ entry ∈ self.extensions, entry.extensionName ≠ extension_name) →
        self.has_extension extension_name vulkan_version = false)
      ∧ ∀ before first after, self.extensions = before ++ first :: after →
          first.extensionName = extension_name →
          (∀ entry ∈ before, entry.extensionName ≠ extension_name) →
          (self.has_extension extension_name vulkan_version = true
            ↔ semver.lex_ge vulkan_version (semver.decode first.specVersion)) := by
  constructor
  · intro h
    have hf : self.extensions.find? (fun entry => entry.extensionName == extension_name)
        = none := by
      rw [List.find?_eq_none]
      intro entry he
      simpa using h entry he
    unfold physical_device.has_extension
    rw [hf]
  · intro before first after hsplit hname hbefore
    have hf : self.extensions.find? (fun entry => entry.extensionName == extension_name)
        = some first := by
      rw [hsplit, List.find?_append]
      have hb : before.find? (fun entry => entry.extensionName == extension_name) = none := by
        rw [List.find?_eq_none]
        intro entry he
        simpa using hbefore entry he
      rw [hb]
      simp [List.find?_cons, hname]
    unfold physical_device.has_extension
    rw [hf]
    exact semver_ge_iff _ _

/-- C29 on a device that lists `VK_KHR_swapchain` twice, with the revisions
0.0.70 and then 1.0.0: for the version 0.1.0 the answer is that of the first
entry. -/
theorem has_extension_first_entry_witness :
    (gpu_with_revisions.has_extension "VK_KHR_swapchain" ⟨0, 1, 0⟩ = true
        ↔ semver.lex_ge ⟨0, 1, 0⟩ (semver.decode 70))
      ∧ gpu_with_revisions.has_extension "VK_KHR_swapchain" ⟨0, 1, 0⟩ = true
      ∧ ¬ semver.lex_ge ⟨0, 1, 0⟩ (semver.decode 4194304)
      ∧ gpu_with_revisions.has_extension "VK_KHR_display" ⟨0, 1, 0⟩ = false :=
  ⟨(has_extension_first_entry gpu_with_revisions "VK_KHR_swapchain" ⟨0, 1, 0⟩).2
      [⟨"VK_KHR_surface", 25⟩] ⟨"VK_KHR_swapchain", 70⟩ [⟨"VK_KHR_swapchain", 4194304⟩]
      rfl rfl (by decide),
    by decide, by unfold semver.lex_ge; decide, by decide⟩

end vulkan
